import Mathlib

/-!
# Verification of the RFID attendance system (hoanghaip2005/rfidnodejs)

Shallow embedding of the attendance-event processing core:

* `RfidNode.Normalizer` — card-identifier normalization
  (`RFIDService.normalizeCardId` / `isValidCardId` / `processManualScan`
  and the `/rfid/manual` route's inline copy);
* `RfidNode.Suppressor` — in-memory duplicate-scan suppression
  (`RFIDService.processRFIDScan`) and the persistent duplicate check
  (`Attendance.checkDuplicateScan`);
* `RfidNode.Ledger` — the `Attendance` model's query functions;
* `RfidNode.Routes` — the scan-processing express routes from
  `src/routes/api.js` and `src/routes/staff.js`;
* `RfidNode.Network` — the `requireCompanyNetwork` middleware;
* `RfidNode.Checkpoints` — the checkpoint registry and checkpoint logs.

Timestamps are modelled as natural numbers (seconds for ledger rows and
SQL comparisons, milliseconds for the in-memory suppressor, matching the
units each piece of code uses); calendar dates as natural day numbers.
-/

namespace RfidNode

/-- The `action_type` column: the source only ever writes the strings
`'check_in'` and `'check_out'`. -/
inductive ActionType where
  | check_in
  | check_out
deriving DecidableEq, Repr

/-- The `status` column: the source writes `'valid'` on every scan path and
administrative voiding sets it to another value; queries compare against
the literal `'valid'`. -/
inductive RecStatus where
  | valid
  | voided
deriving DecidableEq, Repr

/-- One row of the `attendance` table, with the columns the scan paths and
queries touch (`Attendance` constructor fields in `src/models/Attendance.js`).
`scanTime` is in seconds, `scanDate` is a day number. -/
structure AttendanceRecord where
  userId : Nat
  rfidCard : String
  scanTime : Nat
  scanDate : Nat
  actionType : ActionType
  eventId : Option Nat
  notes : Option String
  status : RecStatus
deriving DecidableEq, Repr

/-- The attendance table, in insertion order (inserts append at the end). -/
abbrev Ledger := List AttendanceRecord

/-- One step of a running SQL `MIN`. -/
def minNatStep (acc : Option Nat) (t : Nat) : Option Nat :=
  match acc with
  | none => some t
  | some u => some (Min.min u t)

/-- One step of a running SQL `MAX`. -/
def maxNatStep (acc : Option Nat) (t : Nat) : Option Nat :=
  match acc with
  | none => some t
  | some u => some (Max.max u t)

/-- JavaScript `String.prototype.trim`: drop leading and trailing
whitespace. Implemented over the character list so that it evaluates by
reduction. -/
def jsTrim (s : String) : String :=
  String.mk
    (((s.toList.dropWhile Char.isWhitespace).reverse.dropWhile
      Char.isWhitespace).reverse)

/-- SQL `MIN` over a projected column: `none` on an empty set. -/
def foldMinNat (l : List Nat) : Option Nat :=
  l.foldl minNatStep none

/-- SQL `MAX` over a projected column: `none` on an empty set. -/
def foldMaxNat (l : List Nat) : Option Nat :=
  l.foldl maxNatStep none

namespace Normalizer

/-- `RFIDService.normalizeCardId` (src/unnamed/part_002 lines 201-209):
`if (!cardId) return null`, strip non-digit characters
(`replace(/\D/g, '')`), then `padStart(10, '0')`. -/
def normalizeCardId (cardId : String) : Option String :=
  if cardId = "" then none
  else
    let cleaned := cardId.toList.filter Char.isDigit
    some (String.mk (List.replicate (10 - cleaned.length) '0' ++ cleaned))

/-- `RFIDService.isValidCardId` (part_002 lines 212-222): reject empty,
require `/^\d+$/` (non-empty, all digits), and length between 8 and 12. -/
def isValidCardId (cardId : String) : Bool :=
  if cardId = "" then false
  else if !(cardId.toList.length > 0 && cardId.toList.all Char.isDigit) then false
  else if cardId.toList.length < 8 || cardId.toList.length > 12 then false
  else true

/-- `RFIDService.processManualScan` (part_002 lines 154-166): normalize, and
accept (process the scan, return `true`) iff the normalized id is truthy and
valid; otherwise return `false`. Returns the accepted id alongside. -/
def processManualScan (cardId : String) : Bool × Option String :=
  match normalizeCardId cardId with
  | none => (false, none)
  | some normalizedId =>
      if normalizedId ≠ "" && isValidCardId normalizedId then
        (true, some normalizedId)
      else
        (false, none)

/-- The inline copy in `POST /rfid/manual` (src/routes/api.js lines 334-343):
normalize (`replace(/\D/g, '').padStart(10, '0')`), then reject with
`INVALID_CARD_ID` iff the length is below 8 or above 12; otherwise forward
the normalized card to the scan handler. `none` models the rejection. -/
def rfidManualNormalize (card_id : String) : Option String :=
  let cleaned := card_id.toList.filter Char.isDigit
  let normalized := String.mk (List.replicate (10 - cleaned.length) '0' ++ cleaned)
  if normalized.toList.length < 8 || normalized.toList.length > 12 then none
  else some normalized

end Normalizer

namespace Ledger

/-- One step of the running `ORDER BY scan_time DESC LIMIT 1` maximum:
keep whichever row has the greater `scan_time`, preferring the later row on
ties. -/
def maxStep (acc : Option AttendanceRecord) (r : AttendanceRecord) :
    Option AttendanceRecord :=
  match acc with
  | none => some r
  | some b => if b.scanTime ≤ r.scanTime then some r else some b

/-- The SQL implicit choice `ORDER BY scan_time DESC LIMIT 1`: the row with
the greatest `scan_time` (later rows win ties, matching the scan paths where
ties cannot occur because times strictly increase). -/
def latestByScanTime (rows : List AttendanceRecord) : Option AttendanceRecord :=
  rows.foldl maxStep none

/-- `Attendance.getLastScanForUser` (src/models/Attendance.js lines 128-148):
`WHERE user_id = ? AND status = 'valid'`, plus `AND scan_date = ?` only when a
date is passed, then `ORDER BY scan_time DESC LIMIT 1`. The function takes
exactly these two parameters; the third argument some call sites pass is
dropped by JavaScript. -/
def getLastScanForUser (ledger : Ledger) (userId : Nat) (date : Option Nat) :
    Option AttendanceRecord :=
  latestByScanTime <| ledger.filter fun r =>
    r.userId == userId && r.status == RecStatus.valid &&
      (match date with
       | none => true
       | some d => r.scanDate == d)

/-- `Attendance.findByDateRange` (Attendance.js lines 102-125):
`WHERE scan_date BETWEEN ? AND ?`, plus `AND user_id = ?` when a user filter
is passed, then `ORDER BY scan_time DESC`. There is no `status` condition in
this query. Ordering is modelled as insertion-order filtering followed by a
stable sort on descending `scan_time`. -/
def findByDateRange (ledger : Ledger) (startDate endDate : Nat)
    (userId : Option Nat) : List AttendanceRecord :=
  let filtered := ledger.filter fun r =>
    startDate ≤ r.scanDate && r.scanDate ≤ endDate &&
      (match userId with
       | none => true
       | some u => r.userId == u)
  filtered.mergeSort fun a b => decide (b.scanTime ≤ a.scanTime)

/-- `Attendance.checkDuplicateScan` (Attendance.js lines 151-165):
`cutoffTime = now - minInterval` seconds, then
`WHERE user_id = ? AND rfid_card = ? AND scan_time > ?`; the result is
whether any row matches. There is no `status` condition in this query. -/
def checkDuplicateScan (ledger : Ledger) (userId : Nat) (rfidCard : String)
    (minInterval : Nat) (now : Nat) : Bool :=
  let cutoffTime := now - minInterval
  ledger.any fun r =>
    r.userId == userId && r.rfidCard == rfidCard && r.scanTime > cutoffTime

/-- The `total_records` aggregate of `Attendance.getAttendanceStats`
(Attendance.js lines 172-173): `COUNT(*)` over
`scan_date BETWEEN ? AND ? AND status = 'valid'`. -/
def statsTotalRecords (ledger : Ledger) (startDate endDate : Nat) : Nat :=
  (ledger.filter fun r =>
    startDate ≤ r.scanDate && r.scanDate ≤ endDate &&
      r.status == RecStatus.valid).length

end Ledger

namespace Suppressor

/-- The in-memory anti-spam state of `RFIDService` (src/unnamed/part_002):
`lastScans` maps a card id to the last accepted scan time in milliseconds;
`minScanInterval` is 5000 ms. Modelled as an association list keyed by card. -/
abbrev LastScans := List (String × Nat)

/-- `Map.prototype.get` on the association list. -/
def lookup (m : LastScans) (cardId : String) : Option Nat :=
  (m.find? (fun p => p.1 == cardId)).map (·.2)

/-- `Map.prototype.set`: replace the binding if present, else add it. -/
def setKey (m : LastScans) (cardId : String) (t : Nat) : LastScans :=
  if m.any (fun p => p.1 == cardId) then
    m.map (fun p => if p.1 == cardId then (cardId, t) else p)
  else
    (cardId, t) :: m

/-- `RFIDService.minScanInterval = 5000` milliseconds (part_002 line 13). -/
def minScanInterval : Nat := 5000

/-- `RFIDService.processRFIDScan` (part_002 lines 169-198): if the card has a
recorded truthy last scan (`if (lastScanTime && ...)`) and
`now - lastScanTime < minScanInterval`, emit `spam` and leave the map
unchanged; otherwise set the map entry to `now` and emit the `scan` event.
Returns the new map and whether a scan event was emitted. -/
def processRFIDScan (m : LastScans) (cardId : String) (now : Nat) :
    LastScans × Bool :=
  match lookup m cardId with
  | some lastScanTime =>
      if lastScanTime ≠ 0 && now - lastScanTime < minScanInterval then
        (m, false)
      else
        (setKey m cardId now, true)
  | none => (setKey m cardId now, true)

end Suppressor

namespace Routes

/-- Outcome of the scan-processing routes, after authentication and rate
limiting (which are outside the embedded fragment). -/
inductive ScanOutcome where
  | missingRfid
  | duplicateScan
  | ok (record : AttendanceRecord)
deriving DecidableEq, Repr

/-- `User.findByRfidCard` as seen from the routes: it can return an owner id,
no owner, or throw; the routes only branch on these three cases. -/
abbrev OwnerLookup := Except Unit (Option Nat)

/-- Target-user resolution shared by `/rfid/scan`, `/attendance/checkin` and
`/attendance/checkout` (api.js lines 38-53, 1182-1197, 1366-1381):
start from the logged-in user, switch to the card owner only when the lookup
returns an owner with a truthy id, and swallow lookup errors. -/
def resolveTargetUser (selfId : Nat) (ownerLookup : OwnerLookup) : Nat :=
  match ownerLookup with
  | Except.ok (some ownerId) => if ownerId ≠ 0 then ownerId else selfId
  | Except.ok none => selfId
  | Except.error _ => selfId

/-- The `notes` value of `/rfid/scan` (api.js line 97): `scanned_by:<actor>`
when the actor has a truthy id and differs from the target, else null. -/
def scanNotes (selfId targetUserId : Nat) : Option String :=
  if selfId ≠ 0 && selfId ≠ targetUserId then
    some ("scanned_by:" ++ toString selfId)
  else
    none

/-- The lookup argument of api.js line 69: `event_id ? null : today` — an
event-scoped scan looks up the user's last scan with NO date filter (and,
since `getLastScanForUser` has no event parameter, no event filter
either). -/
def scanLookupDate (event_id : Option Nat) (today : Nat) : Option Nat :=
  match event_id with
  | some _ => none
  | none => some today

/-- The action resolution of `POST /rfid/scan` (api.js lines 70-82): default
`check_in`; with a prior scan, an event-scoped request toggles off it
directly, while a day-scoped request toggles only when the prior scan is
from the same day. -/
def resolveScanAction (lastScan : Option AttendanceRecord)
    (event_id : Option Nat) (today : Nat) : ActionType :=
  match lastScan with
  | none => ActionType.check_in
  | some ls =>
      match event_id with
      | some _ =>
          if ls.actionType = ActionType.check_in then ActionType.check_out
          else ActionType.check_in
      | none =>
          if ls.scanDate == today then
            if ls.actionType = ActionType.check_in then ActionType.check_out
            else ActionType.check_in
          else ActionType.check_in

/-- `POST /rfid/scan` (api.js lines 26-140), from request parsing to the
ledger insert: reject a falsy card, resolve the target user, run the
duplicate check, look up the last scan with
`getLastScanForUser(targetUserId, event_id ? null : today)` (line 69),
compute the action by the alternation rules of lines 70-82, and append the
new row. -/
def rfidScanRoute (ledger : Ledger) (selfId : Nat) (ownerLookup : OwnerLookup)
    (rfid_card : String) (event_id : Option Nat) (today now : Nat) :
    ScanOutcome × Ledger :=
  if rfid_card = "" then (ScanOutcome.missingRfid, ledger)
  else
    let targetUserId := resolveTargetUser selfId ownerLookup
    if Ledger.checkDuplicateScan ledger targetUserId rfid_card 5 now then
      (ScanOutcome.duplicateScan, ledger)
    else
      let lastScan := Ledger.getLastScanForUser ledger targetUserId
        (scanLookupDate event_id today)
      let actionType := resolveScanAction lastScan event_id today
      let newRec : AttendanceRecord :=
        { userId := targetUserId
          rfidCard := rfid_card
          scanTime := now
          scanDate := today
          actionType := actionType
          eventId := event_id
          notes := scanNotes selfId targetUserId
          status := RecStatus.valid }
      (ScanOutcome.ok newRec, ledger ++ [newRec])

/-- The property read `lastScan.event_id` in `POST /attendance/event`
(api.js line 1802): the `Attendance` constructor stores the column under
`this.eventId` (Attendance.js line 21) and defines no `event_id` property, so
this read yields `undefined` on every instance. -/
def attendance_event_id_prop (_ : AttendanceRecord) : Option Nat := none

/-- JavaScript loose equality `undefined-or-number == number`:
`undefined == n` is false for every number `n`. -/
def jsLooseEqUndef (lhs : Option Nat) (rhs : Nat) : Bool :=
  match lhs with
  | some v => v == rhs
  | none => false

/-- `POST /attendance/event` (api.js lines 1771-1822), from request parsing
to the ledger insert: reject falsy `event_id` or `rfid_card` (a `0` event id
is falsy), run the duplicate check, call
`getLastScanForUser(userId, today, event_id)` — whose third argument the
two-parameter model function drops — and alternate only when
`lastScan.event_id == event_id` (line 1802), then append the new row. -/
def attendanceEventRoute (ledger : Ledger) (selfId : Nat) (rfid_card : String)
    (event_id : Nat) (method : Option String) (today now : Nat) :
    ScanOutcome × Ledger :=
  if event_id = 0 || rfid_card = "" then (ScanOutcome.missingRfid, ledger)
  else if Ledger.checkDuplicateScan ledger selfId rfid_card 5 now then
    (ScanOutcome.duplicateScan, ledger)
  else
    let lastScan := Ledger.getLastScanForUser ledger selfId (some today)
    let actionType :=
      match lastScan with
      | none => ActionType.check_in
      | some ls =>
          if jsLooseEqUndef (attendance_event_id_prop ls) event_id then
            if ls.actionType = ActionType.check_in then ActionType.check_out
            else ActionType.check_in
          else ActionType.check_in
    let newRec : AttendanceRecord :=
      { userId := selfId
        rfidCard := rfid_card
        scanTime := now
        scanDate := today
        actionType := actionType
        eventId := some event_id
        notes := some ("Method: " ++ method.getD "manual" ++ ", Event: " ++ toString event_id)
        status := RecStatus.valid }
    (ScanOutcome.ok newRec, ledger ++ [newRec])

/-- The `notes` value of `/attendance/checkin` and `/attendance/checkout`
(api.js lines 1262, 1433): `scanned_by:<actor>, method:<m>` when the actor
has a truthy id and differs from the target, else `method:<m>`. -/
def checkNotes (selfId targetUserId : Nat) (method : Option String) : Option String :=
  if selfId ≠ 0 && selfId ≠ targetUserId then
    some ("scanned_by:" ++ toString selfId ++ ", method:" ++ method.getD "manual")
  else
    some ("method:" ++ method.getD "manual")

/-- `POST /attendance/checkin` (api.js lines 1162-1266): reject falsy card
or location, resolve the target user, duplicate check; if `force_action` is
`'check_in'` or `'check_out'` use it directly, otherwise toggle off
`getLastScanForUser(userId, today)` (lines 1212-1226); then append. -/
def checkinRoute (ledger : Ledger) (selfId : Nat) (ownerLookup : OwnerLookup)
    (rfid_card : String) (force_action : Option ActionType)
    (method : Option String) (today now : Nat) :
    ScanOutcome × Ledger :=
  if rfid_card = "" then (ScanOutcome.missingRfid, ledger)
  else
    let userId := resolveTargetUser selfId ownerLookup
    if Ledger.checkDuplicateScan ledger userId rfid_card 5 now then
      (ScanOutcome.duplicateScan, ledger)
    else
      let actionType :=
        match force_action with
        | some forced => forced
        | none =>
            match Ledger.getLastScanForUser ledger userId (some today) with
            | none => ActionType.check_in
            | some ls =>
                if ls.actionType = ActionType.check_in then ActionType.check_out
                else ActionType.check_in
      let newRec : AttendanceRecord :=
        { userId := userId
          rfidCard := rfid_card
          scanTime := now
          scanDate := today
          actionType := actionType
          eventId := none
          notes := checkNotes selfId userId method
          status := RecStatus.valid }
      (ScanOutcome.ok newRec, ledger ++ [newRec])

/-- `POST /attendance/checkout` (api.js lines 1346-1437): reject falsy card
or location, resolve the target user, duplicate check, then
`const actionType = 'check_out'` (line 1397) with no prior-state validation
of any kind, and append. -/
def checkoutRoute (ledger : Ledger) (selfId : Nat) (ownerLookup : OwnerLookup)
    (rfid_card : String) (method : Option String) (today now : Nat) :
    ScanOutcome × Ledger :=
  if rfid_card = "" then (ScanOutcome.missingRfid, ledger)
  else
    let userId := resolveTargetUser selfId ownerLookup
    if Ledger.checkDuplicateScan ledger userId rfid_card 5 now then
      (ScanOutcome.duplicateScan, ledger)
    else
      let newRec : AttendanceRecord :=
        { userId := userId
          rfidCard := rfid_card
          scanTime := now
          scanDate := today
          actionType := ActionType.check_out
          eventId := none
          notes := checkNotes selfId userId method
          status := RecStatus.valid }
      (ScanOutcome.ok newRec, ledger ++ [newRec])

/-- The per-day status object consumed by `POST /staff/checkoutwork`
(staff.js lines 297-316). -/
structure TodayStatus where
  check_in_time : Option Nat
  check_out_time : Option Nat
deriving DecidableEq, Repr

/-- Modelled from the spec: `Attendance.getTodayStatus`, called at
staff.js line 298, is not defined in the `Attendance` model under src (only
this caller exists). Following §4.4-§4.5 — the forced-exit guard checks for
a prior `entry` and for an exit matching it, and day reports project the
first entry and last exit over valid records — it is modelled as the first
valid `check_in` time and the last valid `check_out` time for (user, date),
with `none` when the user has no valid row at all that day. -/
def getTodayStatus (ledger : Ledger) (userId : Nat) (date : Nat) :
    Option TodayStatus :=
  let rows := ledger.filter fun r =>
    r.userId == userId && r.scanDate == date && r.status == RecStatus.valid
  if rows.isEmpty then none
  else
    some
      { check_in_time := foldMinNat
          ((rows.filter (fun r => r.actionType == ActionType.check_in)).map
            (·.scanTime))
        check_out_time := foldMaxNat
          ((rows.filter (fun r => r.actionType == ActionType.check_out)).map
            (·.scanTime)) }

/-- Outcome of `POST /staff/checkoutwork`. -/
inductive StaffCheckoutOutcome where
  | missingRfid
  | duplicateScan
  | invalidCard
  | notCheckedIn
  | alreadyCheckedOut
  | ok (record : AttendanceRecord)
deriving DecidableEq, Repr

/-- JavaScript truthiness of an optional numeric field:
`!x` holds for `undefined`, `null` and `0`. -/
def jsFalsyOptNat (x : Option Nat) : Bool :=
  match x with
  | none => true
  | some n => n == 0

/-- `POST /staff/checkoutwork` (staff.js lines 257-364): reject a falsy
card; duplicate check; unless `method === 'manual'`, the card must belong to
the logged-in user (`INVALID_CARD` otherwise, lines 284-295); then the guard
of lines 297-316: `NOT_CHECKED_IN` when the day status is missing or has a
falsy `check_in_time`, `ALREADY_CHECKED_OUT` when `check_out_time` is truthy;
otherwise a forced `check_out` row is appended. -/
def staffCheckoutWork (ledger : Ledger) (selfId : Nat)
    (cardOwner : Option Nat) (rfid_card : String) (method : Option String)
    (today now : Nat) : StaffCheckoutOutcome × Ledger :=
  if rfid_card = "" then (StaffCheckoutOutcome.missingRfid, ledger)
  else if Ledger.checkDuplicateScan ledger selfId rfid_card 5 now then
    (StaffCheckoutOutcome.duplicateScan, ledger)
  else if method ≠ some "manual" && cardOwner ≠ some selfId then
    (StaffCheckoutOutcome.invalidCard, ledger)
  else
    match getTodayStatus ledger selfId today with
    | none => (StaffCheckoutOutcome.notCheckedIn, ledger)
    | some st =>
        if jsFalsyOptNat st.check_in_time then
          (StaffCheckoutOutcome.notCheckedIn, ledger)
        else if !(jsFalsyOptNat st.check_out_time) then
          (StaffCheckoutOutcome.alreadyCheckedOut, ledger)
        else
          let newRec : AttendanceRecord :=
            { userId := selfId
              rfidCard := rfid_card
              scanTime := now
              scanDate := today
              actionType := ActionType.check_out
              eventId := none
              notes := none
              status := RecStatus.valid }
          (StaffCheckoutOutcome.ok newRec, ledger ++ [newRec])

/-- Outcome of `SocketIOHandlers.processRFIDScan`. -/
inductive SocketScanOutcome where
  | userNotFound
  | duplicateScan
  | ok (record : AttendanceRecord)
deriving DecidableEq, Repr

/-- `SocketIOHandlers.processRFIDScan`
(src/services/SocketIOHandlers.js lines 221-311): resolve the user from the
card (`User.findById(cardId)`, error when absent), duplicate check, then
`actionType = (!lastScan || lastScan.actionType === 'check_out') ?
'check_in' : 'check_out'` over `getLastScanForUser(user.id, today)`
(lines 260-262), and append the new row. -/
def socketProcessRFIDScan (ledger : Ledger) (userLookup : Option Nat)
    (cardId : String) (eventId : Option Nat) (today now : Nat) :
    SocketScanOutcome × Ledger :=
  match userLookup with
  | none => (SocketScanOutcome.userNotFound, ledger)
  | some userId =>
      if Ledger.checkDuplicateScan ledger userId cardId 5 now then
        (SocketScanOutcome.duplicateScan, ledger)
      else
        let lastScan := Ledger.getLastScanForUser ledger userId (some today)
        let actionType :=
          match lastScan with
          | none => ActionType.check_in
          | some ls =>
              if ls.actionType = ActionType.check_out then ActionType.check_in
              else ActionType.check_out
        let newRec : AttendanceRecord :=
          { userId := userId
            rfidCard := cardId
            scanTime := now
            scanDate := today
            actionType := actionType
            eventId := eventId
            notes := none
            status := RecStatus.valid }
        (SocketScanOutcome.ok newRec, ledger ++ [newRec])

/-- The alternating action pattern the spec's alternation invariant
prescribes for a scope: `check_in` at even replay positions, `check_out` at
odd ones. -/
def expectedActions : Nat → List ActionType
  | 0 => []
  | n + 1 =>
      expectedActions n ++
        [if n % 2 = 0 then ActionType.check_in else ActionType.check_out]

/-- Replay a list of scan submissions through `POST /rfid/scan` for a fixed
user, card and scope (day-scoped when `event_id` is `none`, event-scoped
otherwise), carrying the ledger from each response into the next request. -/
def replayRfidScan (selfId : Nat) (card : String) (event_id : Option Nat)
    (today : Nat) : List Nat → Ledger → Ledger
  | [], ledger => ledger
  | t :: ts, ledger =>
      replayRfidScan selfId card event_id today ts
        (rfidScanRoute ledger selfId (Except.ok none) card event_id today
          t).2

end Routes

namespace Network

/-- An allow-listed network range (`network_configs` rows: `network_ip` with
a mask), with containment as 32-bit prefix equality. -/
structure Cidr where
  net : Nat
  maskBits : Nat
deriving DecidableEq, Repr

def cidrContains (c : Cidr) (addr : Nat) : Bool :=
  addr / 2 ^ (32 - c.maskBits) == c.net / 2 ^ (32 - c.maskBits)

/-- `isCompanyNetwork` (src/unnamed/part_003 lines 5-30). The deployed body
is hard-wired `return true` ("TEMPORARILY DISABLED"); the allow-list branch
kept in the source as the commented-out block (lines 11-25) returns false
for a missing client ip and otherwise checks it against the active ranges.
`enforced` is the administrative toggle between the two bodies; the shipped
constant is `enforced = false`. Evaluation errors against the store return
`true` (fail-open, lines 26-29; not reachable in the pure model). -/
def isCompanyNetwork (enforced : Bool) (allowNets : List Cidr)
    (clientIp : Option Nat) : Bool :=
  if !enforced then true
  else
    match clientIp with
    | none => false
    | some addr => allowNets.any (cidrContains · addr)

/-- `isCompanyWifi` (part_003 lines 33-51): deployed body `return true`;
the commented-out allow-list branch (lines 39-46) returns false for a
missing name and otherwise looks `wifiName.trim()` up in the active
`wifi_configs` names. -/
def isCompanyWifi (enforced : Bool) (allowWifis : List String)
    (wifiName : Option String) : Bool :=
  if !enforced then true
  else
    match wifiName with
    | none => false
    | some w => allowWifis.contains (jsTrim w)

/-- Decision of the `requireCompanyNetwork` middleware; the denial carries
the evaluated signals of the response's `debug` object (part_003
lines 102-114). -/
inductive NetworkDecision where
  | allow (accessMethod : String)
  | denied (clientIp gatewayIp : Option Nat) (wifiName : Option String)
      (gatewayAllowed clientIpAllowed wifiAllowed : Bool)
deriving DecidableEq, Repr

/-- Whether the middleware let the request through. -/
def NetworkDecision.isAllow : NetworkDecision → Bool
  | NetworkDecision.allow _ => true
  | NetworkDecision.denied _ _ _ _ _ _ => false

/-- `gatewayAllowed = gatewayIp ? await isCompanyNetwork(gatewayIp) : false`
(part_003 line 80): a falsy gateway value short-circuits to false. -/
def gatewaySignal (enforced : Bool) (allowNets : List Cidr)
    (gatewayIp : Option Nat) : Bool :=
  match gatewayIp with
  | some g => isCompanyNetwork enforced allowNets (some g)
  | none => false

/-- `wifiAllowed = wifiName ? await isCompanyWifi(wifiName) : false`
(part_003 line 86): a falsy wifi name — absent or the empty string —
short-circuits to false. -/
def wifiSignal (enforced : Bool) (allowWifis : List String)
    (wifiName : Option String) : Bool :=
  match wifiName with
  | some w => if w = "" then false else isCompanyWifi enforced allowWifis (some w)
  | none => false

/-- `requireCompanyNetwork` (part_003 lines 73-134):
`gatewayAllowed = gatewayIp ? isCompanyNetwork(gatewayIp) : false`,
`clientIpAllowed = isCompanyNetwork(clientIp)`,
`wifiAllowed = wifiName ? isCompanyWifi(wifiName) : false`,
allow iff any of the three holds (line 89), with the access method recorded
by the same priority order (line 122); otherwise respond 403
`NETWORK_ACCESS_DENIED` carrying the evaluated signals. -/
def requireCompanyNetwork (enforced : Bool) (allowNets : List Cidr)
    (allowWifis : List String) (clientIp gatewayIp : Option Nat)
    (wifiName : Option String) : NetworkDecision :=
  let gatewayAllowed := gatewaySignal enforced allowNets gatewayIp
  let clientIpAllowed := isCompanyNetwork enforced allowNets clientIp
  let wifiAllowed := wifiSignal enforced allowWifis wifiName
  if gatewayAllowed || clientIpAllowed || wifiAllowed then
    NetworkDecision.allow
      (if gatewayAllowed then "gateway"
       else if clientIpAllowed then "client_ip"
       else "wifi")
  else
    NetworkDecision.denied clientIp gatewayIp wifiName
      gatewayAllowed clientIpAllowed wifiAllowed

end Network

namespace Checkpoints

/-- One row of `event_checkpoints` (api.js lines 363-390), with the unique
key (event_name, checkpoint_name). -/
structure Checkpoint where
  event_name : String
  checkpoint_name : String
  checkpoint_type : String
  display_order : Int
  is_active : Bool
deriving DecidableEq, Repr

abbrev Registry := List Checkpoint

/-- One row of `event_checkpoint_logs` (api.js lines 393-421). -/
structure CheckpointLog where
  event_id : Nat
  user_id : String
  checkpoint_name : String
  action_time : Nat
deriving DecidableEq, Repr

/-- One row of `event_participants` as `POST /event-manager/check` uses it. -/
structure EventParticipant where
  event_id : Nat
  user_id : String
  name : String
  phone : String
deriving DecidableEq, Repr

/-- A character matched by the `[\s-]` class of the name normalizer. -/
def isSpaceOrDash (c : Char) : Bool := c.isWhitespace || c == '-'

/-- `replace(/[\s-]+/g, '_')`: each maximal run of whitespace/dash characters
becomes a single underscore. The flag records whether the previous character
was part of such a run. -/
def squashSeparators : Bool → List Char → List Char
  | _, [] => []
  | prevSep, c :: rest =>
      if isSpaceOrDash c then
        if prevSep then squashSeparators true rest
        else '_' :: squashSeparators true rest
      else c :: squashSeparators false rest

def toUpperStr (s : String) : String := String.mk (s.toList.map Char.toUpper)

/-- The name normalization of `POST /event-manager/add-checkpoint`
(api.js line 1042): `String(checkpoint_name).trim().replace(/[\s-]+/g,
'_').toUpperCase()`. -/
def normalizeCheckpointName (s : String) : String :=
  toUpperStr (String.mk (squashSeparators false (jsTrim s).toList))

/-- The test `/^[A-Z0-9_]+$/` of api.js line 1043. -/
def isNameChar (c : Char) : Bool :=
  ('A' ≤ c && c ≤ 'Z') || ('0' ≤ c && c ≤ '9') || c == '_'

def validCheckpointName (s : String) : Bool :=
  !s.toList.isEmpty && s.toList.all isNameChar

/-- Outcome of `POST /event-manager/add-checkpoint` (role check aside). -/
inductive AddCheckpointOutcome where
  | missingFields
  | invalidType
  | invalidName
  | ok
deriving DecidableEq, Repr

/-- `POST /event-manager/add-checkpoint` (api.js lines 1016-1068): reject a
missing event or checkpoint name; take the type from the request with `'IN'`
as the default for an absent field (line 1035), uppercase it, and reject
anything other than `IN`/`OUT` (lines 1036-1039); normalize the name and
reject it unless it matches `/^[A-Z0-9_]+$/` (lines 1042-1045); then insert,
or — when the (event_name, checkpoint_name) unique key already exists — set
the type, order and `is_active = 1` on the existing row (lines 1050-1061). -/
def addCheckpoint (registry : Registry) (event_name checkpoint_name : String)
    (checkpoint_type : Option String) (display_order : Int) :
    AddCheckpointOutcome × Registry :=
  if event_name = "" || checkpoint_name = "" then
    (AddCheckpointOutcome.missingFields, registry)
  else
    let rawType := checkpoint_type.getD "IN"
    let ctype := toUpperStr rawType
    if !(ctype = "IN" || ctype = "OUT") then
      (AddCheckpointOutcome.invalidType, registry)
    else
      let name := normalizeCheckpointName checkpoint_name
      if !validCheckpointName name then
        (AddCheckpointOutcome.invalidName, registry)
      else if registry.any
          (fun c => c.event_name == event_name && c.checkpoint_name == name) then
        (AddCheckpointOutcome.ok,
          registry.map fun c =>
            if c.event_name == event_name && c.checkpoint_name == name then
              { c with checkpoint_type := ctype, display_order := display_order,
                       is_active := true }
            else c)
      else
        (AddCheckpointOutcome.ok,
          registry ++ [⟨event_name, name, ctype, display_order, true⟩])

/-- One cell of the availability matrix (`GET /event-manager/available`,
api.js lines 470-516): `MAX(action_time)` grouped by user and checkpoint for
the event; `none` is rendered as the empty cell `''`. -/
def availabilityCell (logs : List CheckpointLog) (eventId : Nat)
    (uid : String) (cp : String) : Option Nat :=
  foldMaxNat
    ((logs.filter fun l =>
        l.event_id == eventId && l.user_id == uid &&
          l.checkpoint_name == cp).map (·.action_time))

/-- Outcome of `POST /event-manager/check`. -/
inductive EventCheckOutcome where
  | missingCheckpoint
  | checkpointNotFound
  | noIdentifier
  | participantNotFound
  | ok
deriving DecidableEq, Repr

/-- `POST /event-manager/check` (api.js lines 2102-2194), after event
resolution: reject a missing checkpoint name; the checkpoint must exist
active for the event (lines 2126-2132); reject a missing identifier; resolve
the participant, lazily registering one when a customer name accompanies the
scan and failing with `PARTICIPANT_NOT_FOUND` otherwise (lines 2156-2174);
then unconditionally insert a log row at the current time (lines 2176-2182)
— no check against existing logs, no alternation. -/
def eventCheckRoute (registry : Registry)
    (participants : List EventParticipant) (logs : List CheckpointLog)
    (event_name : String) (eventId : Nat) (column_type : String)
    (identifier : String) (customer_name customer_phone : Option String)
    (now : Nat) :
    EventCheckOutcome × List EventParticipant × List CheckpointLog :=
  if column_type = "" then
    (EventCheckOutcome.missingCheckpoint, participants, logs)
  else if !(registry.any fun c =>
      c.event_name == event_name && c.checkpoint_name == column_type &&
        c.is_active) then
    (EventCheckOutcome.checkpointNotFound, participants, logs)
  else if identifier = "" then
    (EventCheckOutcome.noIdentifier, participants, logs)
  else
    let userId := identifier
    let existing := participants.any fun p =>
      p.event_id == eventId && p.user_id == userId
    match existing, customer_name with
    | false, none => (EventCheckOutcome.participantNotFound, participants, logs)
    | false, some cname =>
        (EventCheckOutcome.ok,
          participants ++ [⟨eventId, userId, cname, customer_phone.getD ""⟩],
          logs ++ [⟨eventId, userId, column_type, now⟩])
    | true, _ =>
        (EventCheckOutcome.ok, participants,
          logs ++ [⟨eventId, userId, column_type, now⟩])

end Checkpoints

/-! ### Helper lemmas about the embedded queries -/

theorem minNatStep_foldl_ne_none :
    ∀ (l : List Nat) (u : Nat), l.foldl minNatStep (some u) ≠ none := by
  intro l
  induction l with
  | nil => intro u h; exact Option.noConfusion h
  | cons t ts ih => intro u h; exact ih (Min.min u t) h

theorem maxNatStep_foldl_ne_none :
    ∀ (l : List Nat) (u : Nat), l.foldl maxNatStep (some u) ≠ none := by
  intro l
  induction l with
  | nil => intro u h; exact Option.noConfusion h
  | cons t ts ih => intro u h; exact ih (Max.max u t) h

theorem foldMinNat_eq_none {l : List Nat} (h : foldMinNat l = none) : l = [] := by
  cases l with
  | nil => rfl
  | cons t ts => exact absurd h (minNatStep_foldl_ne_none ts t)

theorem foldMaxNat_eq_none {l : List Nat} (h : foldMaxNat l = none) : l = [] := by
  cases l with
  | nil => rfl
  | cons t ts => exact absurd h (maxNatStep_foldl_ne_none ts t)

theorem minNatStep_foldl_mem :
    ∀ (l : List Nat) (acc : Option Nat) (t : Nat),
      l.foldl minNatStep acc = some t → acc = some t ∨ t ∈ l := by
  intro l
  induction l with
  | nil => intro acc t h; exact Or.inl h
  | cons x xs ih =>
      intro acc t h
      rw [List.foldl_cons] at h
      rcases ih (minNatStep acc x) t h with h' | h'
      · cases acc with
        | none =>
            simp only [minNatStep, Option.some.injEq] at h'
            exact Or.inr (by simp [h'])
        | some u =>
            simp only [minNatStep, Option.some.injEq] at h'
            by_cases hle : u ≤ x
            · exact Or.inl (by rw [← h', Nat.min_eq_left hle])
            · exact Or.inr (by
                simp [← h', Nat.min_eq_right (Nat.le_of_not_le hle)])
      · exact Or.inr (List.mem_cons_of_mem _ h')

theorem maxNatStep_foldl_mem :
    ∀ (l : List Nat) (acc : Option Nat) (t : Nat),
      l.foldl maxNatStep acc = some t → acc = some t ∨ t ∈ l := by
  intro l
  induction l with
  | nil => intro acc t h; exact Or.inl h
  | cons x xs ih =>
      intro acc t h
      rw [List.foldl_cons] at h
      rcases ih (maxNatStep acc x) t h with h' | h'
      · cases acc with
        | none =>
            simp only [maxNatStep, Option.some.injEq] at h'
            exact Or.inr (by simp [h'])
        | some u =>
            simp only [maxNatStep, Option.some.injEq] at h'
            by_cases hle : u ≤ x
            · exact Or.inr (by
                simp [← h', Nat.max_eq_right hle])
            · exact Or.inl (by
                rw [← h', Nat.max_eq_left (Nat.le_of_not_le hle)])
      · exact Or.inr (List.mem_cons_of_mem _ h')

theorem foldMinNat_mem {l : List Nat} {t : Nat} (h : foldMinNat l = some t) :
    t ∈ l := by
  rcases minNatStep_foldl_mem l none t h with h' | h'
  · exact absurd h' (by simp)
  · exact h'

theorem foldMaxNat_mem {l : List Nat} {t : Nat} (h : foldMaxNat l = some t) :
    t ∈ l := by
  rcases maxNatStep_foldl_mem l none t h with h' | h'
  · exact absurd h' (by simp)
  · exact h'

namespace Ledger

theorem maxStep_foldl_mem :
    ∀ (l : List AttendanceRecord) (acc : Option AttendanceRecord)
      (b : AttendanceRecord),
      l.foldl maxStep acc = some b → acc = some b ∨ b ∈ l := by
  intro l
  induction l with
  | nil => intro acc b h; exact Or.inl h
  | cons x xs ih =>
      intro acc b h
      rw [List.foldl_cons] at h
      rcases ih (maxStep acc x) b h with h' | h'
      · cases acc with
        | none =>
            simp only [maxStep, Option.some.injEq] at h'
            exact Or.inr (by simp [h'])
        | some c =>
            by_cases hle : c.scanTime ≤ x.scanTime
            · simp only [maxStep, if_pos hle, Option.some.injEq] at h'
              exact Or.inr (by simp [h'])
            · simp only [maxStep, if_neg hle, Option.some.injEq] at h'
              exact Or.inl (by rw [h'])
      · exact Or.inr (List.mem_cons_of_mem _ h')

theorem latestByScanTime_mem {l : List AttendanceRecord} {b : AttendanceRecord}
    (h : latestByScanTime l = some b) : b ∈ l := by
  rcases maxStep_foldl_mem l none b h with h' | h'
  · exact absurd h' (by simp)
  · exact h'

theorem latestByScanTime_concat {l : List AttendanceRecord}
    {r : AttendanceRecord} (h : ∀ s ∈ l, s.scanTime ≤ r.scanTime) :
    latestByScanTime (l ++ [r]) = some r := by
  unfold latestByScanTime
  rw [List.foldl_append, List.foldl_cons, List.foldl_nil]
  rcases hfold : l.foldl maxStep none with _ | b
  · rfl
  · have hb : b ∈ l := by
      rcases maxStep_foldl_mem l none b hfold with h' | h'
      · exact absurd h' (by simp)
      · exact h'
    simp [maxStep, h b hb]

/-- With every row satisfying the filter predicate and the last row latest,
`getLastScanForUser` returns the last row. -/
theorem getLastScanForUser_concat {l : List AttendanceRecord}
    {r : AttendanceRecord} {userId : Nat} {date : Option Nat}
    (hfilter : ∀ s ∈ l ++ [r],
      (s.userId == userId && s.status == RecStatus.valid &&
        (match date with
         | none => true
         | some d => s.scanDate == d)) = true)
    (hmax : ∀ s ∈ l, s.scanTime ≤ r.scanTime) :
    getLastScanForUser (l ++ [r]) userId date = some r := by
  unfold getLastScanForUser
  rw [List.filter_eq_self.mpr hfilter]
  exact latestByScanTime_concat hmax

theorem getLastScanForUser_nil (userId : Nat) (date : Option Nat) :
    getLastScanForUser [] userId date = none := rfl

/-- Rows returned by `getLastScanForUser` are valid. -/
theorem getLastScanForUser_status {ledger : Ledger} {userId : Nat}
    {date : Option Nat} {r : AttendanceRecord}
    (h : getLastScanForUser ledger userId date = some r) :
    r.status = RecStatus.valid := by
  unfold getLastScanForUser at h
  have hm := latestByScanTime_mem h
  have := List.of_mem_filter hm
  simp only [Bool.and_eq_true, beq_iff_eq] at this
  exact this.1.2

/-- Rows returned by a date-filtered `getLastScanForUser` carry that date. -/
theorem getLastScanForUser_date {ledger : Ledger} {userId : Nat}
    {d : Nat} {r : AttendanceRecord}
    (h : getLastScanForUser ledger userId (some d) = some r) :
    r.scanDate = d := by
  unfold getLastScanForUser at h
  have hm := latestByScanTime_mem h
  have := List.of_mem_filter hm
  simp only [Bool.and_eq_true, beq_iff_eq] at this
  exact this.2

theorem checkDuplicateScan_eq_false {ledger : Ledger} {userId : Nat}
    {rfidCard : String} {minInterval now : Nat}
    (h : ∀ r ∈ ledger, r.userId = userId → r.rfidCard = rfidCard →
      r.scanTime ≤ now - minInterval) :
    checkDuplicateScan ledger userId rfidCard minInterval now = false := by
  unfold checkDuplicateScan
  simp only [List.any_eq_false, Bool.and_eq_true, beq_iff_eq, decide_eq_true_eq,
    not_and, gt_iff_lt, not_lt]
  intro r hr h1
  exact h r hr h1.1 h1.2

/-- The duplicate check is exactly a recency test on (user, card), with no
condition on the validity flag. -/
theorem checkDuplicateScan_iff (ledger : Ledger) (userId : Nat)
    (rfidCard : String) (minInterval now : Nat) :
    checkDuplicateScan ledger userId rfidCard minInterval now = true ↔
      ∃ r ∈ ledger, r.userId = userId ∧ r.rfidCard = rfidCard ∧
        now - minInterval < r.scanTime := by
  unfold checkDuplicateScan
  simp only [List.any_eq_true, Bool.and_eq_true, beq_iff_eq,
    decide_eq_true_eq, gt_iff_lt]
  constructor
  · rintro ⟨r, hr, ⟨⟨h1, h2⟩, h3⟩⟩
    exact ⟨r, hr, h1, h2, h3⟩
  · rintro ⟨r, hr, h1, h2, h3⟩
    exact ⟨r, hr, ⟨⟨h1, h2⟩, h3⟩⟩

end Ledger

theorem stringMk_ne_empty {l : List Char} (h : l ≠ []) : String.mk l ≠ "" :=
  fun hc => h (String.ext_iff.mp hc)

namespace Routes

theorem expectedActions_length : ∀ n, (expectedActions n).length = n := by
  intro n
  induction n with
  | zero => rfl
  | succ k ih => simp [expectedActions, ih]

theorem expectedActions_getLast (n : Nat) :
    (expectedActions (n + 1)).getLast? =
      some (if n % 2 = 0 then ActionType.check_in
        else ActionType.check_out) := by
  rw [expectedActions, List.getLast?_concat]

/-- With all rows of a concat-shaped map equation, the appended row's action
is the pattern's last entry. -/
theorem map_actionType_concat {l : List AttendanceRecord}
    {b : AttendanceRecord}
    (hmap : (l ++ [b]).map (·.actionType) =
      expectedActions (l.length + 1)) :
    b.actionType =
      (if l.length % 2 = 0 then ActionType.check_in
       else ActionType.check_out) := by
  have h1 := congrArg List.getLast? hmap
  rw [List.map_append, List.map_singleton, List.getLast?_concat,
    expectedActions_getLast] at h1
  exact Option.some.inj h1

/-- Toggling off the pattern's last action yields the pattern's next
action, for either scope of the resolver. -/
theorem resolveScanAction_toggle {b : AttendanceRecord}
    (event_id : Option Nat) (today : Nat) (k : Nat)
    (hb : b.actionType =
      (if k % 2 = 0 then ActionType.check_in else ActionType.check_out))
    (hdate : b.scanDate = today) :
    resolveScanAction (some b) event_id today =
      (if (k + 1) % 2 = 0 then ActionType.check_in
       else ActionType.check_out) := by
  have h2 : k % 2 = 0 ∨ k % 2 = 1 := by omega
  rcases h2 with h | h
  · have h3 : (k + 1) % 2 = 1 := by omega
    rw [h] at hb
    cases event_id <;> simp [resolveScanAction, hb, hdate, h3]
  · have h3 : (k + 1) % 2 = 0 := by omega
    rw [h] at hb
    cases event_id <;> simp [resolveScanAction, hb, hdate, h3]

/-- One accepted step of `POST /rfid/scan` with the owner lookup returning
nothing: the response is ok and the ledger gains exactly the resolved row. -/
theorem rfidScanRoute_ok {ledger : Ledger} {selfId : Nat} {card : String}
    {event_id : Option Nat} {today t : Nat}
    (hcard : card ≠ "")
    (hdup : Ledger.checkDuplicateScan ledger selfId card 5 t = false) :
    rfidScanRoute ledger selfId (Except.ok none) card event_id today t =
      (ScanOutcome.ok
        ⟨selfId, card, t, today,
          resolveScanAction
            (Ledger.getLastScanForUser ledger selfId
              (scanLookupDate event_id today)) event_id today,
          event_id, scanNotes selfId selfId, RecStatus.valid⟩,
       ledger ++
        [⟨selfId, card, t, today,
          resolveScanAction
            (Ledger.getLastScanForUser ledger selfId
              (scanLookupDate event_id today)) event_id today,
          event_id, scanNotes selfId selfId, RecStatus.valid⟩]) := by
  unfold rfidScanRoute
  rw [if_neg hcard]
  simp only [resolveTargetUser, hdup, Bool.false_eq_true, if_false]

/-- The filter predicate of the resolver's lookup holds on every row the
replay invariant tracks, for either scope. -/
theorem scanLookup_pred {r : AttendanceRecord} {selfId : Nat}
    {event_id : Option Nat} {today : Nat}
    (h1 : r.userId = selfId) (h2 : r.status = RecStatus.valid)
    (h3 : r.scanDate = today) :
    (r.userId == selfId && r.status == RecStatus.valid &&
      (match scanLookupDate event_id today with
       | none => true
       | some d => r.scanDate == d)) = true := by
  cases event_id <;> simp [scanLookupDate, h1, h2, h3]

/-- The replay invariant: starting from a ledger that already follows the
alternating pattern for this (user, card, scope) with strictly spaced
times, replaying further scans through `POST /rfid/scan` extends the
pattern. -/
theorem replayRfidScan_alternates (selfId : Nat) (card : String)
    (event_id : Option Nat) (today : Nat) (hcard : card ≠ "") :
    ∀ (ts : List Nat) (ledger : Ledger),
      ts.Pairwise (fun a b => a + 5 ≤ b) →
      (∀ r ∈ ledger, ∀ t ∈ ts, r.scanTime + 5 ≤ t) →
      (∀ r ∈ ledger, r.userId = selfId ∧ r.rfidCard = card ∧
        r.scanDate = today ∧ r.status = RecStatus.valid) →
      (∀ r ∈ ledger, ∀ b ∈ ledger.getLast?, r.scanTime ≤ b.scanTime) →
      ledger.map (·.actionType) = expectedActions ledger.length →
      (replayRfidScan selfId card event_id today ts ledger).map
          (·.actionType) =
        expectedActions (ledger.length + ts.length) := by
  intro ts
  induction ts with
  | nil =>
      intro ledger _ _ _ _ hmap
      simpa [replayRfidScan] using hmap
  | cons t ts ih =>
      intro ledger hpair htimes hfields hlast hmap
      rw [List.pairwise_cons] at hpair
      obtain ⟨hhead, hpair'⟩ := hpair
      have hdup : Ledger.checkDuplicateScan ledger selfId card 5 t =
          false := by
        apply Ledger.checkDuplicateScan_eq_false
        intro r hr _ _
        have := htimes r hr t (by simp)
        omega
      have haction : resolveScanAction
          (Ledger.getLastScanForUser ledger selfId
            (scanLookupDate event_id today)) event_id today =
          (if ledger.length % 2 = 0 then ActionType.check_in
           else ActionType.check_out) := by
        rcases List.eq_nil_or_concat ledger with hnil | ⟨l, b, hconcat⟩
        · rw [hnil]
          rw [Ledger.getLastScanForUser_nil]
          simp [resolveScanAction]
        · rw [List.concat_eq_append] at hconcat
          subst hconcat
          have hmax : ∀ s ∈ l, s.scanTime ≤ b.scanTime := by
            intro s hs
            exact hlast s (by simp [hs]) b
              (by rw [List.getLast?_concat]; rfl)
          have hlook : Ledger.getLastScanForUser (l ++ [b]) selfId
              (scanLookupDate event_id today) = some b := by
            apply Ledger.getLastScanForUser_concat _ hmax
            intro s hs
            obtain ⟨hs1, hs2, hs3, hs4⟩ := hfields s hs
            exact scanLookup_pred hs1 hs4 hs3
          rw [hlook]
          have hblen : (l ++ [b]).length = l.length + 1 := by simp
          have hb : b.actionType =
              (if l.length % 2 = 0 then ActionType.check_in
               else ActionType.check_out) := by
            apply map_actionType_concat
            rw [← hblen]
            exact hmap
          obtain ⟨_, _, hbdate, _⟩ := hfields b (by simp)
          rw [hblen]
          exact resolveScanAction_toggle event_id today l.length hb hbdate
      have hstep := @rfidScanRoute_ok ledger selfId card event_id today t hcard hdup
      rw [replayRfidScan, hstep]
      have hih := ih (ledger ++
        [⟨selfId, card, t, today,
          resolveScanAction
            (Ledger.getLastScanForUser ledger selfId
              (scanLookupDate event_id today)) event_id today,
          event_id, scanNotes selfId selfId, RecStatus.valid⟩])
        hpair'
        (by
          intro r hr t' ht'
          rcases List.mem_append.mp hr with h | h
          · exact htimes r h t' (by simp [ht'])
          · have hr' : r = ⟨selfId, card, t, today, _, event_id, _, _⟩ :=
              List.mem_singleton.mp h
            rw [hr']
            exact hhead t' ht')
        (by
          intro r hr
          rcases List.mem_append.mp hr with h | h
          · exact hfields r h
          · rw [List.mem_singleton.mp h]
            exact ⟨rfl, rfl, rfl, rfl⟩)
        (by
          intro r hr b hb
          rw [List.getLast?_concat] at hb
          have hbt : b.scanTime = t := by
            rw [← Option.some.inj hb]
          rcases List.mem_append.mp hr with h | h
          · have h5 := htimes r h t (by simp)
            omega
          · have hrt : r.scanTime = t := by
              rw [List.mem_singleton.mp h]
            omega)
        (by
          rw [List.map_append, List.map_singleton, hmap, haction]
          have hlen2 : ∀ (x : AttendanceRecord),
              (ledger ++ [x]).length = ledger.length + 1 := by
            intro x
            simp
          rw [hlen2, expectedActions])
      rw [hih]
      congr 1
      simp
      omega

end Routes

end RfidNode

namespace RfidNode

/-! ### Claim theorems -/

/-- Claim C2, amended: the NotCheckedIn/AlreadyCheckedOut guard is enforced
only by the staff checkout route, with a day-scoped status lookup: (1) with
no valid `check_in` row for (user, today), `POST /staff/checkoutwork` fails
with `NOT_CHECKED_IN`; (2) with a valid `check_in` and a valid `check_out`
that day it fails with `ALREADY_CHECKED_OUT`; (3) with a valid `check_in`
and no `check_out` it records the forced exit. (4) The generic forced-exit
entry point `POST /attendance/checkout` applies no such guard: once past
the duplicate check it records a forced `check_out` against any ledger. -/
theorem c2_forced_exit_guard_amended :
    (∀ (ledger : Ledger) (selfId : Nat) (card : String) (today now : Nat),
      card ≠ "" →
      Ledger.checkDuplicateScan ledger selfId card 5 now = false →
      (∀ r ∈ ledger, r.userId = selfId → r.scanDate = today →
        r.status = RecStatus.valid → r.actionType ≠ ActionType.check_in) →
      Routes.staffCheckoutWork ledger selfId none card (some "manual") today
          now =
        (Routes.StaffCheckoutOutcome.notCheckedIn, ledger)) ∧
    (∀ (ledger : Ledger) (selfId : Nat) (card : String) (today now : Nat),
      card ≠ "" →
      Ledger.checkDuplicateScan ledger selfId card 5 now = false →
      (∀ r ∈ ledger, 0 < r.scanTime) →
      (∃ r ∈ ledger, r.userId = selfId ∧ r.scanDate = today ∧
        r.status = RecStatus.valid ∧ r.actionType = ActionType.check_in) →
      (∃ r ∈ ledger, r.userId = selfId ∧ r.scanDate = today ∧
        r.status = RecStatus.valid ∧ r.actionType = ActionType.check_out) →
      Routes.staffCheckoutWork ledger selfId none card (some "manual") today
          now =
        (Routes.StaffCheckoutOutcome.alreadyCheckedOut, ledger)) ∧
    (∀ (ledger : Ledger) (selfId : Nat) (card : String) (today now : Nat),
      card ≠ "" →
      Ledger.checkDuplicateScan ledger selfId card 5 now = false →
      (∀ r ∈ ledger, 0 < r.scanTime) →
      (∃ r ∈ ledger, r.userId = selfId ∧ r.scanDate = today ∧
        r.status = RecStatus.valid ∧ r.actionType = ActionType.check_in) →
      (∀ r ∈ ledger, r.userId = selfId → r.scanDate = today →
        r.status = RecStatus.valid → r.actionType ≠ ActionType.check_out) →
      ∃ rec, Routes.staffCheckoutWork ledger selfId none card (some "manual")
          today now =
        (Routes.StaffCheckoutOutcome.ok rec, ledger ++ [rec]) ∧
        rec.actionType = ActionType.check_out) ∧
    (∀ (ledger : Ledger) (selfId : Nat) (card : String)
      (method : Option String) (today now : Nat),
      card ≠ "" →
      Ledger.checkDuplicateScan ledger selfId card 5 now = false →
      ∃ rec, Routes.checkoutRoute ledger selfId (Except.ok none) card method
          today now =
        (Routes.ScanOutcome.ok rec, ledger ++ [rec]) ∧
        rec.actionType = ActionType.check_out) := by
  refine ⟨?_, ?_, ?_, ?_⟩
  · intro ledger selfId card today now hcard hdup hnoin
    unfold Routes.staffCheckoutWork
    rw [if_neg hcard, hdup]
    rw [if_neg (by simp : ¬(false = true))]
    have hguard : (decide ((some "manual" : Option String) ≠ some "manual") &&
        decide ((none : Option Nat) ≠ some selfId)) = false := by simp
    rw [hguard, if_neg (by simp : ¬(false = true))]
    unfold Routes.getTodayStatus
    set rows := ledger.filter (fun r =>
      r.userId == selfId && r.scanDate == today &&
        r.status == RecStatus.valid) with hrows
    by_cases hempty : rows.isEmpty
    · rw [if_pos hempty]
    · rw [if_neg hempty]
      have hcin : rows.filter
          (fun r => r.actionType == ActionType.check_in) = [] := by
        rw [List.filter_eq_nil_iff]
        intro r hr
        have hm := List.mem_filter.mp hr
        simp only [Bool.and_eq_true, beq_iff_eq] at hm
        simp only [beq_iff_eq]
        exact hnoin r hm.1 hm.2.1.1 hm.2.1.2 hm.2.2
      rw [hcin]
      simp [Routes.jsFalsyOptNat, foldMinNat]
  · intro ledger selfId card today now hcard hdup hpos hin hout
    unfold Routes.staffCheckoutWork
    rw [if_neg hcard, hdup]
    rw [if_neg (by simp : ¬(false = true))]
    have hguard : (decide ((some "manual" : Option String) ≠ some "manual") &&
        decide ((none : Option Nat) ≠ some selfId)) = false := by simp
    rw [hguard, if_neg (by simp : ¬(false = true))]
    unfold Routes.getTodayStatus
    set rows := ledger.filter (fun r =>
      r.userId == selfId && r.scanDate == today &&
        r.status == RecStatus.valid) with hrows
    obtain ⟨ri, hri, hri1, hri2, hri3, hri4⟩ := hin
    obtain ⟨ro, hro, hro1, hro2, hro3, hro4⟩ := hout
    have hriRows : ri ∈ rows := by
      rw [hrows]
      exact List.mem_filter.mpr ⟨hri, by simp [hri1, hri2, hri3]⟩
    have hroRows : ro ∈ rows := by
      rw [hrows]
      exact List.mem_filter.mpr ⟨hro, by simp [hro1, hro2, hro3]⟩
    have hempty : ¬ (rows.isEmpty = true) := by
      rw [List.isEmpty_iff]
      exact List.ne_nil_of_mem hriRows
    rw [if_neg hempty]
    have hriF : ri ∈ rows.filter
        (fun r => r.actionType == ActionType.check_in) :=
      List.mem_filter.mpr ⟨hriRows, by simp [hri4]⟩
    have hroF : ro ∈ rows.filter
        (fun r => r.actionType == ActionType.check_out) :=
      List.mem_filter.mpr ⟨hroRows, by simp [hro4]⟩
    rcases hmin : foldMinNat ((rows.filter
        (fun r => r.actionType == ActionType.check_in)).map (·.scanTime))
      with _ | tin
    · have h0 := foldMinNat_eq_none hmin
      rw [List.map_eq_nil_iff] at h0
      rw [h0] at hriF
      simp at hriF
    · rcases hmax : foldMaxNat ((rows.filter
          (fun r => r.actionType == ActionType.check_out)).map (·.scanTime))
        with _ | tout
      · have h0 := foldMaxNat_eq_none hmax
        rw [List.map_eq_nil_iff] at h0
        rw [h0] at hroF
        simp at hroF
      · have htin : tin ≠ 0 := by
          have hm := foldMinNat_mem hmin
          rcases List.mem_map.mp hm with ⟨a, ha, haeq⟩
          have := hpos a (List.mem_of_mem_filter (List.mem_of_mem_filter ha))
          omega
        have htout : tout ≠ 0 := by
          have hm := foldMaxNat_mem hmax
          rcases List.mem_map.mp hm with ⟨a, ha, haeq⟩
          have := hpos a (List.mem_of_mem_filter (List.mem_of_mem_filter ha))
          omega
        rw [hmin, hmax]
        simp [Routes.jsFalsyOptNat, htin, htout]
  · intro ledger selfId card today now hcard hdup hpos hin hnoout
    refine ⟨⟨selfId, card, now, today, ActionType.check_out, none, none,
      RecStatus.valid⟩, ?_, rfl⟩
    unfold Routes.staffCheckoutWork
    rw [if_neg hcard, hdup]
    rw [if_neg (by simp : ¬(false = true))]
    have hguard : (decide ((some "manual" : Option String) ≠ some "manual") &&
        decide ((none : Option Nat) ≠ some selfId)) = false := by simp
    rw [hguard, if_neg (by simp : ¬(false = true))]
    unfold Routes.getTodayStatus
    set rows := ledger.filter (fun r =>
      r.userId == selfId && r.scanDate == today &&
        r.status == RecStatus.valid) with hrows
    obtain ⟨ri, hri, hri1, hri2, hri3, hri4⟩ := hin
    have hriRows : ri ∈ rows := by
      rw [hrows]
      exact List.mem_filter.mpr ⟨hri, by simp [hri1, hri2, hri3]⟩
    have hempty : ¬ (rows.isEmpty = true) := by
      rw [List.isEmpty_iff]
      exact List.ne_nil_of_mem hriRows
    rw [if_neg hempty]
    have hriF : ri ∈ rows.filter
        (fun r => r.actionType == ActionType.check_in) :=
      List.mem_filter.mpr ⟨hriRows, by simp [hri4]⟩
    have hcout : rows.filter
        (fun r => r.actionType == ActionType.check_out) = [] := by
      rw [List.filter_eq_nil_iff]
      intro r hr
      have hm := List.mem_filter.mp hr
      simp only [Bool.and_eq_true, beq_iff_eq] at hm
      simp only [beq_iff_eq]
      exact hnoout r hm.1 hm.2.1.1 hm.2.1.2 hm.2.2
    rcases hmin : foldMinNat ((rows.filter
        (fun r => r.actionType == ActionType.check_in)).map (·.scanTime))
      with _ | tin
    · have h0 := foldMinNat_eq_none hmin
      rw [List.map_eq_nil_iff] at h0
      rw [h0] at hriF
      simp at hriF
    · have htin : tin ≠ 0 := by
        have hm := foldMinNat_mem hmin
        rcases List.mem_map.mp hm with ⟨a, ha, haeq⟩
        have := hpos a (List.mem_of_mem_filter (List.mem_of_mem_filter ha))
        omega
      rw [hcout, hmin]
      simp [Routes.jsFalsyOptNat, htin, foldMaxNat]
  · intro ledger selfId card method today now hcard hdup
    refine ⟨⟨selfId, card, now, today, ActionType.check_out, none,
      Routes.checkNotes selfId selfId method, RecStatus.valid⟩, ?_, rfl⟩
    unfold Routes.checkoutRoute
    rw [if_neg hcard]
    simp [Routes.resolveTargetUser, hdup]

/-- Claim C2, witness for the amended theorem at concrete inputs: an empty
day fails `NOT_CHECKED_IN`; a completed entry/exit pair fails
`ALREADY_CHECKED_OUT`; an open entry is closed by the forced exit; and the
generic checkout endpoint records a forced exit on an empty ledger. -/
theorem c2_forced_exit_guard_amended_witness :
    Routes.staffCheckoutWork [] 1 none "c" (some "manual") 0 10 =
      (Routes.StaffCheckoutOutcome.notCheckedIn, []) ∧
    Routes.staffCheckoutWork
      [⟨1, "c", 10, 0, ActionType.check_in, none, none, RecStatus.valid⟩,
       ⟨1, "c", 20, 0, ActionType.check_out, none, none, RecStatus.valid⟩]
      1 none "c" (some "manual") 0 30 =
      (Routes.StaffCheckoutOutcome.alreadyCheckedOut,
       [⟨1, "c", 10, 0, ActionType.check_in, none, none, RecStatus.valid⟩,
        ⟨1, "c", 20, 0, ActionType.check_out, none, none, RecStatus.valid⟩]) ∧
    (∃ rec, Routes.staffCheckoutWork
      [⟨1, "c", 10, 0, ActionType.check_in, none, none, RecStatus.valid⟩]
      1 none "c" (some "manual") 0 30 =
      (Routes.StaffCheckoutOutcome.ok rec,
       [⟨1, "c", 10, 0, ActionType.check_in, none, none, RecStatus.valid⟩] ++
         [rec]) ∧
      rec.actionType = ActionType.check_out) ∧
    (∃ rec, Routes.checkoutRoute [] 1 (Except.ok none) "c" none 0 10 =
      (Routes.ScanOutcome.ok rec, [] ++ [rec]) ∧
      rec.actionType = ActionType.check_out) :=
  ⟨c2_forced_exit_guard_amended.1 [] 1 "c" 0 10 (by decide) (by decide)
      (by simp),
   c2_forced_exit_guard_amended.2.1 _ 1 "c" 0 30 (by decide) (by decide)
      (by decide) (by decide) (by decide),
   c2_forced_exit_guard_amended.2.2.1 _ 1 "c" 0 30 (by decide) (by decide)
      (by decide) (by decide) (by decide),
   c2_forced_exit_guard_amended.2.2.2 [] 1 "c" none 0 10 (by decide)
      (by decide)⟩

/-- Claim C3: duplicate suppression. In the in-memory suppressor, a second
scan of a card strictly less than 5000 ms after the last accepted scan is
rejected as spam and the last-accepted map is left unchanged, while a scan
at or beyond the window is accepted and updates the map entry to now. At the
route level, two scans of the same (user, card) with the second strictly
inside the 5-second window produce exactly one attendance row: the first is
recorded, the second is rejected with `DUPLICATE_SCAN` and leaves the ledger
unchanged. -/
theorem c3_duplicate_suppression
    (m : Suppressor.LastScans) (card : String) (t1 t2 : Nat)
    (hl : Suppressor.lookup m card = some t1) (ht1 : t1 ≠ 0)
    (ledger : Ledger) (uid : Nat) (rcard : String) (today n1 n2 : Nat)
    (hrcard : rcard ≠ "") (h5 : 5 ≤ n1) (hle : n1 ≤ n2) (hwin : n2 < n1 + 5)
    (hnd : Ledger.checkDuplicateScan ledger uid rcard 5 n1 = false) :
    (t2 - t1 < Suppressor.minScanInterval →
      Suppressor.processRFIDScan m card t2 = (m, false)) ∧
    (Suppressor.minScanInterval ≤ t2 - t1 →
      Suppressor.processRFIDScan m card t2 =
        (Suppressor.setKey m card t2, true)) ∧
    (∃ rec,
      Routes.rfidScanRoute ledger uid (Except.ok none) rcard none today n1 =
        (Routes.ScanOutcome.ok rec, ledger ++ [rec]) ∧
      Routes.rfidScanRoute (ledger ++ [rec]) uid (Except.ok none) rcard none
          today n2 = (Routes.ScanOutcome.duplicateScan, ledger ++ [rec]) ∧
      (ledger ++ [rec]).length = ledger.length + 1) := by
  refine ⟨?_, ?_, ?_⟩
  · intro hlt
    unfold Suppressor.processRFIDScan
    rw [hl]
    have hc : (decide (t1 ≠ 0) &&
        decide (t2 - t1 < Suppressor.minScanInterval)) = true := by
      simp [ht1, hlt]
    simp [hc]
    exact ⟨ht1, hlt⟩
  · intro hge
    unfold Suppressor.processRFIDScan
    rw [hl]
    have hc : (decide (t1 ≠ 0) &&
        decide (t2 - t1 < Suppressor.minScanInterval)) = false := by
      simp only [Bool.and_eq_false_iff, decide_eq_false_iff_not, not_not,
        not_lt]
      exact Or.inr hge
    simp [hc]
    intro _
    exact hge
  · have hstep : ∃ rec,
        Routes.rfidScanRoute ledger uid (Except.ok none) rcard none today n1 =
          (Routes.ScanOutcome.ok rec, ledger ++ [rec]) ∧
        rec.userId = uid ∧ rec.rfidCard = rcard ∧ rec.scanTime = n1 := by
      unfold Routes.rfidScanRoute
      rw [if_neg hrcard]
      simp only [Routes.resolveTargetUser, hnd]
      exact ⟨_, rfl, rfl, rfl, rfl⟩
    obtain ⟨rec, hstep, hu, hc, ht⟩ := hstep
    refine ⟨rec, hstep, ?_, by simp⟩
    have hdup2 : Ledger.checkDuplicateScan (ledger ++ [rec]) uid rcard 5 n2 =
        true :=
      (Ledger.checkDuplicateScan_iff _ _ _ _ _).mpr
        ⟨rec, by simp, hu, hc, by omega⟩
    unfold Routes.rfidScanRoute
    rw [if_neg hrcard]
    simp only [Routes.resolveTargetUser, hdup2]
    simp

/-- Claim C3, witness: map holding card `"c"` accepted at 10000 ms; a retry
at 14999 ms is rejected without a map update, a retry at 15000 ms is
accepted and updates the map; at the route level, scans at seconds 100 and
104 of user 1 on an empty ledger record exactly one row. -/
theorem c3_duplicate_suppression_witness :
    ((14999 : Nat) - 10000 < Suppressor.minScanInterval →
      Suppressor.processRFIDScan [("c", 10000)] "c" 14999 =
        ([("c", 10000)], false)) ∧
    (Suppressor.minScanInterval ≤ (14999 : Nat) - 10000 →
      Suppressor.processRFIDScan [("c", 10000)] "c" 14999 =
        (Suppressor.setKey [("c", 10000)] "c" 14999, true)) ∧
    (∃ rec,
      Routes.rfidScanRoute [] 1 (Except.ok none) "0000000001" none 7 100 =
        (Routes.ScanOutcome.ok rec, [] ++ [rec]) ∧
      Routes.rfidScanRoute ([] ++ [rec]) 1 (Except.ok none) "0000000001" none
          7 104 = (Routes.ScanOutcome.duplicateScan, [] ++ [rec]) ∧
      ([] ++ [rec]).length = List.length ([] : Ledger) + 1) :=
  c3_duplicate_suppression [("c", 10000)] "c" 10000 14999 (by decide)
    (by decide) [] 1 "0000000001" 7 100 104 (by decide) (by decide)
    (by decide) (by decide) (by decide)

/-- Claim C5, counterexample: a voided record inside the queried range is
returned by `findByDateRange` and still triggers the duplicate-scan check —
neither query carries a `status = 'valid'` condition — contradicting the
claim that voided records are excluded from every resolution and reporting
query. -/
theorem c5_voided_exclusion_counterexample :
    Ledger.findByDateRange
      [⟨1, "c", 10, 6, ActionType.check_out, none, none, RecStatus.voided⟩]
      5 9 none =
      [⟨1, "c", 10, 6, ActionType.check_out, none, none, RecStatus.voided⟩] ∧
    Ledger.checkDuplicateScan
      [⟨1, "c", 10, 6, ActionType.check_out, none, none, RecStatus.voided⟩]
      1 "c" 5 12 = true := by
  constructor
  · simp [Ledger.findByDateRange]
  · decide

/-- Claim C5, amended: voided records are excluded from the last-event
lookup (`getLastScanForUser` only returns valid rows) and from the aggregate
report counts (`statsTotalRecords` is insensitive to rows that are not
valid), but `findByDateRange` membership and the `checkDuplicateScan` test
depend only on date range, user, card and recency — not on the validity
flag — so voided rows are returned and still suppress rescans. -/
theorem c5_voided_exclusion_amended :
    (∀ (ledger : Ledger) (uid : Nat) (date : Option Nat)
      (r : AttendanceRecord),
      Ledger.getLastScanForUser ledger uid date = some r →
      r.status = RecStatus.valid) ∧
    (∀ (ledger : Ledger) (s e : Nat) (u : Option Nat) (r : AttendanceRecord),
      r ∈ Ledger.findByDateRange ledger s e u ↔
        (r ∈ ledger ∧ s ≤ r.scanDate ∧ r.scanDate ≤ e ∧
          (match u with
           | none => True
           | some uid => r.userId = uid))) ∧
    (∀ (ledger : Ledger) (uid : Nat) (card : String) (mi now : Nat),
      Ledger.checkDuplicateScan ledger uid card mi now = true ↔
        ∃ r ∈ ledger, r.userId = uid ∧ r.rfidCard = card ∧
          now - mi < r.scanTime) ∧
    (∀ (ledger : Ledger) (s e : Nat),
      Ledger.statsTotalRecords ledger s e =
        Ledger.statsTotalRecords
          (ledger.filter (·.status == RecStatus.valid)) s e) := by
  refine ⟨?_, ?_, ?_, ?_⟩
  · intro ledger uid date r h
    exact Ledger.getLastScanForUser_status h
  · intro ledger s e u r
    unfold Ledger.findByDateRange
    rw [List.Perm.mem_iff (List.mergeSort_perm _ _)]
    rw [List.mem_filter]
    simp only [Bool.and_eq_true, decide_eq_true_eq, beq_iff_eq]
    cases u with
    | none => simp [and_assoc]
    | some uid => simp [and_assoc]
  · intro ledger uid card mi now
    exact Ledger.checkDuplicateScan_iff ledger uid card mi now
  · intro ledger s e
    unfold Ledger.statsTotalRecords
    rw [List.filter_filter]
    congr 1
    apply List.filter_congr
    intro r _
    cases hv : (r.status == RecStatus.valid) <;> simp [hv]

/-- Claim C5, witness for the amended theorem at concrete inputs. -/
theorem c5_voided_exclusion_amended_witness :
    (⟨1, "c", 10, 6, ActionType.check_in, none, none,
        RecStatus.valid⟩ : AttendanceRecord).status = RecStatus.valid ∧
    ((⟨1, "c", 10, 6, ActionType.check_out, none, none,
        RecStatus.voided⟩ : AttendanceRecord) ∈
      Ledger.findByDateRange
        [⟨1, "c", 10, 6, ActionType.check_out, none, none,
          RecStatus.voided⟩] 5 9 none ↔
      ((⟨1, "c", 10, 6, ActionType.check_out, none, none,
          RecStatus.voided⟩ : AttendanceRecord) ∈
        [(⟨1, "c", 10, 6, ActionType.check_out, none, none,
          RecStatus.voided⟩ : AttendanceRecord)] ∧
        5 ≤ 6 ∧ 6 ≤ 9 ∧ True)) ∧
    Ledger.statsTotalRecords
      [⟨1, "c", 10, 6, ActionType.check_out, none, none,
        RecStatus.voided⟩] 5 9 =
      Ledger.statsTotalRecords
        ([⟨1, "c", 10, 6, ActionType.check_out, none, none,
          RecStatus.voided⟩].filter (·.status == RecStatus.valid)) 5 9 :=
  ⟨c5_voided_exclusion_amended.1
      [⟨1, "c", 10, 6, ActionType.check_in, none, none, RecStatus.valid⟩]
      1 none _ (by decide),
   c5_voided_exclusion_amended.2.1 _ 5 9 none _,
   c5_voided_exclusion_amended.2.2.2 _ 5 9⟩

/-- Claim C7: the authorization gate combines the three optional signals
with an inclusive OR — the decision is allow exactly when the gateway
signal, the client-address signal or the network-name signal evaluates true
— so a request carrying only a matching gateway passes, only a matching
client address passes, only a matching (non-empty) network name passes; and
with enforcement enabled and no matching signal the request is denied with
`NETWORK_ACCESS_DENIED` carrying the three evaluated signals. With the
allow-list enforcement toggle disabled (the shipped configuration, where
`isCompanyNetwork` is hard-wired true) every request is allowed. The
enforcement-enabled branch is the allow-list logic kept in the source as the
commented-out bodies of `isCompanyNetwork`/`isCompanyWifi`. -/
theorem c7_authorization_or :
    (∀ (allowNets : List Network.Cidr) (allowWifis : List String)
      (clientIp gatewayIp : Option Nat) (wifiName : Option String),
      (Network.requireCompanyNetwork true allowNets allowWifis clientIp
        gatewayIp wifiName).isAllow =
        (Network.gatewaySignal true allowNets gatewayIp ||
          Network.isCompanyNetwork true allowNets clientIp ||
          Network.wifiSignal true allowWifis wifiName)) ∧
    (∀ (allowNets : List Network.Cidr) (allowWifis : List String)
      (clientIp : Option Nat) (g : Nat) (wifiName : Option String),
      allowNets.any (Network.cidrContains · g) = true →
      (Network.requireCompanyNetwork true allowNets allowWifis clientIp
        (some g) wifiName).isAllow = true) ∧
    (∀ (allowNets : List Network.Cidr) (allowWifis : List String)
      (gatewayIp : Option Nat) (c : Nat) (wifiName : Option String),
      allowNets.any (Network.cidrContains · c) = true →
      (Network.requireCompanyNetwork true allowNets allowWifis (some c)
        gatewayIp wifiName).isAllow = true) ∧
    (∀ (allowNets : List Network.Cidr) (allowWifis : List String)
      (clientIp gatewayIp : Option Nat) (w : String),
      w ≠ "" → allowWifis.contains (jsTrim w) = true →
      (Network.requireCompanyNetwork true allowNets allowWifis clientIp
        gatewayIp (some w)).isAllow = true) ∧
    (∀ (allowNets : List Network.Cidr) (allowWifis : List String)
      (clientIp gatewayIp : Option Nat) (wifiName : Option String),
      Network.gatewaySignal true allowNets gatewayIp = false →
      Network.isCompanyNetwork true allowNets clientIp = false →
      Network.wifiSignal true allowWifis wifiName = false →
      Network.requireCompanyNetwork true allowNets allowWifis clientIp
        gatewayIp wifiName =
        Network.NetworkDecision.denied clientIp gatewayIp wifiName
          false false false) ∧
    (∀ (allowNets : List Network.Cidr) (allowWifis : List String)
      (clientIp gatewayIp : Option Nat) (wifiName : Option String),
      (Network.requireCompanyNetwork false allowNets allowWifis clientIp
        gatewayIp wifiName).isAllow = true) := by
  refine ⟨?_, ?_, ?_, ?_, ?_, ?_⟩
  · intro allowNets allowWifis clientIp gatewayIp wifiName
    unfold Network.requireCompanyNetwork
    rcases hb : (Network.gatewaySignal true allowNets gatewayIp ||
        Network.isCompanyNetwork true allowNets clientIp ||
        Network.wifiSignal true allowWifis wifiName) with _ | _
    · simp only [hb, Bool.false_eq_true, if_false]
      rfl
    · simp only [hb, if_true]
      rfl
  · intro allowNets allowWifis clientIp g wifiName h
    unfold Network.requireCompanyNetwork
    have hgs : Network.gatewaySignal true allowNets (some g) = true := by
      simp [Network.gatewaySignal, Network.isCompanyNetwork, h]
    simp [hgs, Network.NetworkDecision.isAllow]
  · intro allowNets allowWifis gatewayIp c wifiName h
    unfold Network.requireCompanyNetwork
    have hcs : Network.isCompanyNetwork true allowNets (some c) = true := by
      simp [Network.isCompanyNetwork, h]
    simp [hcs, Network.NetworkDecision.isAllow]
  · intro allowNets allowWifis clientIp gatewayIp w hw hcont
    unfold Network.requireCompanyNetwork
    have hws : Network.wifiSignal true allowWifis (some w) = true := by
      simp only [Network.wifiSignal, Network.isCompanyWifi, Bool.not_true,
        Bool.false_eq_true, if_false, if_neg hw]
      simpa using hcont
    simp [hws, Network.NetworkDecision.isAllow]
  · intro allowNets allowWifis clientIp gatewayIp wifiName h1 h2 h3
    unfold Network.requireCompanyNetwork
    simp only [h1, h2, h3, Bool.or_false, Bool.false_eq_true, if_false]
  · intro allowNets allowWifis clientIp gatewayIp wifiName
    unfold Network.requireCompanyNetwork
    have hcs : Network.isCompanyNetwork false allowNets clientIp = true := rfl
    simp [hcs, Network.NetworkDecision.isAllow]

/-- Claim C7, witness at concrete inputs: allow-list holding the /24 network
of gateway 0xC0A80101 and name `"W"`; a gateway-only match passes, a
wifi-only match passes, no match with enforcement on is denied carrying the
signals, and the disabled toggle allows everything. -/
theorem c7_authorization_or_witness :
    (Network.requireCompanyNetwork true [⟨0xC0A80100, 24⟩] ["W"] none
      (some 0xC0A80101) none).isAllow = true ∧
    (Network.requireCompanyNetwork true [⟨0xC0A80100, 24⟩] ["W"] none none
      (some "W")).isAllow = true ∧
    Network.requireCompanyNetwork true [⟨0xC0A80100, 24⟩] ["W"] none none
      (some "X") =
      Network.NetworkDecision.denied none none (some "X") false false false ∧
    (Network.requireCompanyNetwork false [] [] none none none).isAllow =
      true :=
  ⟨c7_authorization_or.2.1 [⟨0xC0A80100, 24⟩] ["W"] none 0xC0A80101 none
      (by decide),
   c7_authorization_or.2.2.2.1 [⟨0xC0A80100, 24⟩] ["W"] none none "W"
      (by decide) (by decide),
   c7_authorization_or.2.2.2.2.1 [⟨0xC0A80100, 24⟩] ["W"] none none
      (some "X") (by decide) (by decide) (by decide),
   c7_authorization_or.2.2.2.2.2 [] [] none none none⟩

/-- Claim C8: checkpoint logging is last-write-wins and non-alternating.
Logging the same (event, user, checkpoint) tuple twice at T1 < T2 — with the
checkpoint active and the participant registered — succeeds both times and
appends both rows (no rejection, no toggling); the availability-matrix cell
for that participant and checkpoint then projects the maximum timestamp T2,
not T1; and a cell with no logs is empty (the `none` hypothesis on the
starting cell is exactly that emptiness). -/
theorem c8_checkpoint_last_write_wins
    (registry : Checkpoints.Registry)
    (participants : List Checkpoints.EventParticipant)
    (logs : List Checkpoints.CheckpointLog)
    (event_name : String) (eventId : Nat) (cp : String) (uid : String)
    (t1 t2 : Nat)
    (hcp : cp ≠ "")
    (huid : uid ≠ "")
    (hactive : registry.any (fun c => c.event_name == event_name &&
      c.checkpoint_name == cp && c.is_active) = true)
    (hpart : participants.any (fun p => p.event_id == eventId &&
      p.user_id == uid) = true)
    (hempty : Checkpoints.availabilityCell logs eventId uid cp = none)
    (hlt : t1 < t2) :
    Checkpoints.eventCheckRoute registry participants logs event_name eventId
        cp uid none none t1 =
      (Checkpoints.EventCheckOutcome.ok, participants,
        logs ++ [⟨eventId, uid, cp, t1⟩]) ∧
    Checkpoints.eventCheckRoute registry participants
        (logs ++ [⟨eventId, uid, cp, t1⟩]) event_name eventId cp uid none
        none t2 =
      (Checkpoints.EventCheckOutcome.ok, participants,
        logs ++ [⟨eventId, uid, cp, t1⟩] ++ [⟨eventId, uid, cp, t2⟩]) ∧
    Checkpoints.availabilityCell
      (logs ++ [⟨eventId, uid, cp, t1⟩] ++ [⟨eventId, uid, cp, t2⟩])
      eventId uid cp = some t2 ∧
    (logs ++ [(⟨eventId, uid, cp, t1⟩ : Checkpoints.CheckpointLog)] ++
      [(⟨eventId, uid, cp, t2⟩ : Checkpoints.CheckpointLog)]).length =
      logs.length + 2 := by
  refine ⟨?_, ?_, ?_, by simp⟩
  · simp only [Checkpoints.eventCheckRoute, if_neg hcp, hactive, hpart,
      Bool.not_true, Bool.false_eq_true, if_false, if_neg huid]
  · simp only [Checkpoints.eventCheckRoute, if_neg hcp, hactive, hpart,
      Bool.not_true, Bool.false_eq_true, if_false, if_neg huid,
      List.append_assoc]
  · have hnil : logs.filter (fun l => l.event_id == eventId &&
        l.user_id == uid && l.checkpoint_name == cp) = [] := by
      unfold Checkpoints.availabilityCell at hempty
      exact List.map_eq_nil_iff.mp (foldMaxNat_eq_none hempty)
    unfold Checkpoints.availabilityCell
    rw [List.filter_append, List.filter_append, hnil]
    simp [foldMaxNat, maxNatStep, Nat.max_eq_right (Nat.le_of_lt hlt)]

/-- Claim C8, witness: event 1, participant `"u"`, active checkpoint
`"GATE"`, empty log table; logging at 100 then 200 appends two rows and the
cell reads 200. -/
theorem c8_checkpoint_last_write_wins_witness :
    Checkpoints.eventCheckRoute
        [⟨"E", "GATE", "IN", 1, true⟩] [⟨1, "u", "n", "p"⟩] [] "E" 1 "GATE"
        "u" none none 100 =
      (Checkpoints.EventCheckOutcome.ok,
        ([⟨1, "u", "n", "p"⟩] : List Checkpoints.EventParticipant),
        [] ++ [(⟨1, "u", "GATE", 100⟩ : Checkpoints.CheckpointLog)]) ∧
    Checkpoints.eventCheckRoute
        [⟨"E", "GATE", "IN", 1, true⟩] [⟨1, "u", "n", "p"⟩]
        ([] ++ [⟨1, "u", "GATE", 100⟩]) "E" 1 "GATE" "u" none none 200 =
      (Checkpoints.EventCheckOutcome.ok,
        ([⟨1, "u", "n", "p"⟩] : List Checkpoints.EventParticipant),
        [] ++ [(⟨1, "u", "GATE", 100⟩ : Checkpoints.CheckpointLog)] ++
          [⟨1, "u", "GATE", 200⟩]) ∧
    Checkpoints.availabilityCell
      ([] ++ [(⟨1, "u", "GATE", 100⟩ : Checkpoints.CheckpointLog)] ++
        [⟨1, "u", "GATE", 200⟩]) 1 "u" "GATE" = some 200 ∧
    ([] ++ [(⟨1, "u", "GATE", 100⟩ : Checkpoints.CheckpointLog)] ++
      [(⟨1, "u", "GATE", 200⟩ : Checkpoints.CheckpointLog)]).length =
      List.length ([] : List Checkpoints.CheckpointLog) + 2 :=
  c8_checkpoint_last_write_wins [⟨"E", "GATE", "IN", 1, true⟩]
    [⟨1, "u", "n", "p"⟩] [] "E" 1 "GATE" "u" 100 200 (by decide) (by decide)
    (by decide) (by decide) (by decide) (by decide)

/-- Claim C9: creating a checkpoint defaults the type to `IN` (the source's
rendering of `entry`) when unspecified, rejects any type other than
`IN`/`OUT` (case-insensitively) with the invalid-type error, normalizes the
name (trim, runs of spaces/dashes to a single underscore, uppercase) and
rejects names whose normalization is not `/^[A-Z0-9_]+$/` with the
invalid-name error; re-adding an existing (event, name) pair succeeds
without growing the registry, setting the stored type, order and
`is_active = true` on the existing row, while a fresh pair is appended
active. -/
theorem c9_add_checkpoint :
    (∀ (registry : Checkpoints.Registry) (e n : String) (ord : Int),
      Checkpoints.addCheckpoint registry e n none ord =
        Checkpoints.addCheckpoint registry e n (some "IN") ord) ∧
    (∀ (registry : Checkpoints.Registry) (e n t : String) (ord : Int),
      e ≠ "" → n ≠ "" →
      ¬(Checkpoints.toUpperStr t = "IN" ∨
        Checkpoints.toUpperStr t = "OUT") →
      Checkpoints.addCheckpoint registry e n (some t) ord =
        (Checkpoints.AddCheckpointOutcome.invalidType, registry)) ∧
    (∀ (registry : Checkpoints.Registry) (e n t : String) (ord : Int),
      e ≠ "" → n ≠ "" →
      (Checkpoints.toUpperStr t = "IN" ∨
        Checkpoints.toUpperStr t = "OUT") →
      Checkpoints.validCheckpointName
        (Checkpoints.normalizeCheckpointName n) = false →
      Checkpoints.addCheckpoint registry e n (some t) ord =
        (Checkpoints.AddCheckpointOutcome.invalidName, registry)) ∧
    (∀ (registry : Checkpoints.Registry) (e n t : String) (ord : Int),
      e ≠ "" → n ≠ "" →
      (Checkpoints.toUpperStr t = "IN" ∨
        Checkpoints.toUpperStr t = "OUT") →
      Checkpoints.validCheckpointName
        (Checkpoints.normalizeCheckpointName n) = true →
      registry.any (fun c => c.event_name == e && c.checkpoint_name ==
        Checkpoints.normalizeCheckpointName n) = true →
      (Checkpoints.addCheckpoint registry e n (some t) ord).1 =
        Checkpoints.AddCheckpointOutcome.ok ∧
      (Checkpoints.addCheckpoint registry e n (some t) ord).2.length =
        registry.length ∧
      (∀ c ∈ (Checkpoints.addCheckpoint registry e n (some t) ord).2,
        c.event_name = e →
        c.checkpoint_name = Checkpoints.normalizeCheckpointName n →
        c.checkpoint_type = Checkpoints.toUpperStr t ∧
          c.display_order = ord ∧ c.is_active = true)) ∧
    (∀ (registry : Checkpoints.Registry) (e n t : String) (ord : Int),
      e ≠ "" → n ≠ "" →
      (Checkpoints.toUpperStr t = "IN" ∨
        Checkpoints.toUpperStr t = "OUT") →
      Checkpoints.validCheckpointName
        (Checkpoints.normalizeCheckpointName n) = true →
      registry.any (fun c => c.event_name == e && c.checkpoint_name ==
        Checkpoints.normalizeCheckpointName n) = false →
      Checkpoints.addCheckpoint registry e n (some t) ord =
        (Checkpoints.AddCheckpointOutcome.ok, registry ++
          [⟨e, Checkpoints.normalizeCheckpointName n,
            Checkpoints.toUpperStr t, ord, true⟩])) := by
  refine ⟨?_, ?_, ?_, ?_, ?_⟩
  · intro registry e n ord
    rfl
  · intro registry e n t ord he hn ht
    have htype : (decide (Checkpoints.toUpperStr t = "IN") ||
        decide (Checkpoints.toUpperStr t = "OUT")) = false := by
      simp only [Bool.or_eq_false_iff, decide_eq_false_iff_not]
      exact ⟨fun h => ht (Or.inl h), fun h => ht (Or.inr h)⟩
    simp only [Checkpoints.addCheckpoint, Option.getD_some, htype]
    simp [he, hn]
  · intro registry e n t ord he hn ht hname
    have htype : (decide (Checkpoints.toUpperStr t = "IN") ||
        decide (Checkpoints.toUpperStr t = "OUT")) = true := by
      rcases ht with h | h <;> simp [h]
    simp only [Checkpoints.addCheckpoint, Option.getD_some, htype, hname]
    simp [he, hn]
  · intro registry e n t ord he hn ht hname hmem
    have htype : (decide (Checkpoints.toUpperStr t = "IN") ||
        decide (Checkpoints.toUpperStr t = "OUT")) = true := by
      rcases ht with h | h <;> simp [h]
    have hstep : Checkpoints.addCheckpoint registry e n (some t) ord =
        (Checkpoints.AddCheckpointOutcome.ok,
          registry.map fun c =>
            if c.event_name == e && c.checkpoint_name ==
                Checkpoints.normalizeCheckpointName n then
              { c with checkpoint_type := Checkpoints.toUpperStr t,
                       display_order := ord, is_active := true }
            else c) := by
      simp only [Checkpoints.addCheckpoint, Option.getD_some, htype, hname,
        hmem]
      simp [he, hn]
    rw [hstep]
    refine ⟨rfl, by simp, ?_⟩
    intro c hc hce hcn
    simp only [List.mem_map] at hc
    obtain ⟨c0, hc0, hc0eq⟩ := hc
    by_cases hkey : (c0.event_name == e && c0.checkpoint_name ==
        Checkpoints.normalizeCheckpointName n) = true
    · rw [if_pos hkey] at hc0eq
      rw [← hc0eq]
      exact ⟨rfl, rfl, rfl⟩
    · rw [if_neg hkey] at hc0eq
      exfalso
      apply hkey
      rw [hc0eq]
      simp [hce, hcn]
  · intro registry e n t ord he hn ht hname hmem
    have htype : (decide (Checkpoints.toUpperStr t = "IN") ||
        decide (Checkpoints.toUpperStr t = "OUT")) = true := by
      rcases ht with h | h <;> simp [h]
    simp only [Checkpoints.addCheckpoint, Option.getD_some, htype, hname,
      hmem]
    simp [he, hn]

/-- Claim C9, witness at concrete inputs: a missing type defaults to `IN`;
type `"weird"` is rejected; the name `"gate!"` is rejected after
normalization; re-adding `" gate - a "` (normalized `GATE_A`) to a registry
that already holds an inactive `GATE_A` row keeps one row, reactivated with
the new type and order; adding it to an empty registry appends it. -/
theorem c9_add_checkpoint_witness :
    Checkpoints.addCheckpoint [] "E" "g" none 1 =
      Checkpoints.addCheckpoint [] "E" "g" (some "IN") 1 ∧
    Checkpoints.addCheckpoint [] "E" "g" (some "weird") 1 =
      (Checkpoints.AddCheckpointOutcome.invalidType, []) ∧
    Checkpoints.addCheckpoint [] "E" "gate!" (some "out") 1 =
      (Checkpoints.AddCheckpointOutcome.invalidName, []) ∧
    ((Checkpoints.addCheckpoint [⟨"E", "GATE_A", "IN", 7, false⟩] "E"
        " gate - a " (some "out") 2).1 =
      Checkpoints.AddCheckpointOutcome.ok ∧
     (Checkpoints.addCheckpoint [⟨"E", "GATE_A", "IN", 7, false⟩] "E"
        " gate - a " (some "out") 2).2.length =
      List.length [(⟨"E", "GATE_A", "IN", 7, false⟩ :
        Checkpoints.Checkpoint)] ∧
     (∀ c ∈ (Checkpoints.addCheckpoint [⟨"E", "GATE_A", "IN", 7, false⟩] "E"
        " gate - a " (some "out") 2).2,
       c.event_name = "E" →
       c.checkpoint_name = Checkpoints.normalizeCheckpointName " gate - a " →
       c.checkpoint_type = Checkpoints.toUpperStr "out" ∧
         c.display_order = 2 ∧ c.is_active = true)) ∧
    Checkpoints.addCheckpoint [] "E" " gate - a " (some "out") 2 =
      (Checkpoints.AddCheckpointOutcome.ok,
        [] ++ [⟨"E", Checkpoints.normalizeCheckpointName " gate - a ",
          Checkpoints.toUpperStr "out", 2, true⟩]) :=
  ⟨c9_add_checkpoint.1 [] "E" "g" 1,
   c9_add_checkpoint.2.1 [] "E" "g" "weird" 1 (by decide) (by decide)
     (by decide),
   c9_add_checkpoint.2.2.1 [] "E" "gate!" "out" 1 (by decide) (by decide)
     (by decide) (by decide),
   c9_add_checkpoint.2.2.2.1 [⟨"E", "GATE_A", "IN", 7, false⟩] "E"
     " gate - a " "out" 2 (by decide) (by decide) (by decide) (by decide)
     (by decide),
   c9_add_checkpoint.2.2.2.2 [] "E" " gate - a " "out" 2 (by decide)
     (by decide) (by decide) (by decide) (by decide)⟩

/-- Claim C10: on `POST /rfid/scan` a card that matches no registered user
is not rejected — the attendance row is recorded against the authenticated
submitting user with no note (the target equals the actor); an error thrown
by the card-owner lookup is swallowed with the same fallback; and when the
lookup finds a different owner the row is recorded against that owner with a
`scanned_by:` note naming the actor. -/
theorem c10_unregistered_card_fallback :
    (∀ (ledger : Ledger) (selfId : Nat) (card : String) (eid : Option Nat)
      (today now : Nat),
      card ≠ "" →
      Ledger.checkDuplicateScan ledger selfId card 5 now = false →
      ∃ rec, Routes.rfidScanRoute ledger selfId (Except.ok none) card eid
          today now = (Routes.ScanOutcome.ok rec, ledger ++ [rec]) ∧
        rec.userId = selfId ∧ rec.notes = none ∧
        rec.status = RecStatus.valid) ∧
    (∀ (ledger : Ledger) (selfId : Nat) (card : String) (eid : Option Nat)
      (today now : Nat),
      card ≠ "" →
      Ledger.checkDuplicateScan ledger selfId card 5 now = false →
      ∃ rec, Routes.rfidScanRoute ledger selfId (Except.error ()) card eid
          today now = (Routes.ScanOutcome.ok rec, ledger ++ [rec]) ∧
        rec.userId = selfId) ∧
    (∀ (ledger : Ledger) (selfId ownerId : Nat) (card : String)
      (eid : Option Nat) (today now : Nat),
      card ≠ "" → selfId ≠ 0 → ownerId ≠ 0 → ownerId ≠ selfId →
      Ledger.checkDuplicateScan ledger ownerId card 5 now = false →
      ∃ rec, Routes.rfidScanRoute ledger selfId (Except.ok (some ownerId))
          card eid today now =
          (Routes.ScanOutcome.ok rec, ledger ++ [rec]) ∧
        rec.userId = ownerId ∧
        rec.notes = some ("scanned_by:" ++ toString selfId)) := by
  refine ⟨?_, ?_, ?_⟩
  · intro ledger selfId card eid today now hcard hdup
    unfold Routes.rfidScanRoute
    rw [if_neg hcard]
    simp only [Routes.resolveTargetUser, hdup, Bool.false_eq_true, if_false]
    exact ⟨_, rfl, rfl, by simp [Routes.scanNotes], rfl⟩
  · intro ledger selfId card eid today now hcard hdup
    unfold Routes.rfidScanRoute
    rw [if_neg hcard]
    simp only [Routes.resolveTargetUser, hdup, Bool.false_eq_true, if_false]
    exact ⟨_, rfl, rfl⟩
  · intro ledger selfId ownerId card eid today now hcard hself howner hneq
      hdup
    unfold Routes.rfidScanRoute
    rw [if_neg hcard]
    have hres : Routes.resolveTargetUser selfId (Except.ok (some ownerId)) =
        ownerId := by
      simp [Routes.resolveTargetUser, howner]
    simp only [hres, hdup, Bool.false_eq_true, if_false]
    refine ⟨_, rfl, rfl, ?_⟩
    simp only [Routes.scanNotes]
    have hcond : (decide ¬selfId = 0 && decide ¬selfId = ownerId) = true := by
      simp [hself, Ne.symm hneq]
    rw [hcond, if_pos rfl]

/-- Claim C10, witness: user 2 submits card `"0000000009"` that is owned by
nobody (lookup returns null), that errors in lookup, and that is owned by
user 5 — recorded respectively against user 2 (no note), user 2, and user 5
with a `scanned_by:2` note. -/
theorem c10_unregistered_card_fallback_witness :
    (∃ rec, Routes.rfidScanRoute [] 2 (Except.ok none) "0000000009" none 7
        100 = (Routes.ScanOutcome.ok rec, [] ++ [rec]) ∧
      rec.userId = 2 ∧ rec.notes = none ∧ rec.status = RecStatus.valid) ∧
    (∃ rec, Routes.rfidScanRoute [] 2 (Except.error ()) "0000000009" none 7
        100 = (Routes.ScanOutcome.ok rec, [] ++ [rec]) ∧
      rec.userId = 2) ∧
    (∃ rec, Routes.rfidScanRoute [] 2 (Except.ok (some 5)) "0000000009" none
        7 100 = (Routes.ScanOutcome.ok rec, [] ++ [rec]) ∧
      rec.userId = 5 ∧ rec.notes = some ("scanned_by:" ++ toString 2)) :=
  ⟨c10_unregistered_card_fallback.1 [] 2 "0000000009" none 7 100 (by decide)
      (by decide),
   c10_unregistered_card_fallback.2.1 [] 2 "0000000009" none 7 100
      (by decide) (by decide),
   c10_unregistered_card_fallback.2.2 [] 2 5 "0000000009" none 7 100
      (by decide) (by decide) (by decide) (by decide) (by decide)⟩

/-- Claim C4: the alternation invariant. For any ScopeKey — a user with a
calendar day (`event_id = none`) or with an event scope (`event_id = some
e`) — replaying N successful scans in submission order through
`POST /rfid/scan` from an empty history yields the action sequence
`check_in, check_out, check_in, …`: the i-th action is `check_in` exactly at
even i, so the sequence starts with entry and no two consecutive actions are
equal. The time hypothesis (each submission at least 5 s after the previous)
is what makes all N scans successful past the duplicate suppressor. The
hardware-bridge path `SocketIOHandlers.processRFIDScan` writes the same
ledger as the day-scoped route for the same inputs. -/
theorem c4_alternation_invariant :
    (∀ (selfId : Nat) (card : String) (event_id : Option Nat) (today : Nat)
      (times : List Nat),
      card ≠ "" →
      times.Pairwise (fun a b => a + 5 ≤ b) →
      (Routes.replayRfidScan selfId card event_id today times []).map
          (·.actionType) = Routes.expectedActions times.length ∧
      (Routes.replayRfidScan selfId card event_id today times []).length =
        times.length) ∧
    (∀ (ledger : Ledger) (uid : Nat) (c : String) (t n : Nat),
      c ≠ "" →
      (Routes.socketProcessRFIDScan ledger (some uid) c none t n).2 =
        (Routes.rfidScanRoute ledger uid (Except.ok (some uid)) c none t
          n).2) := by
  constructor
  · intro selfId card event_id today times hcard hpair
    have hmain := Routes.replayRfidScan_alternates selfId card event_id
      today hcard times [] hpair (by simp) (by simp) (by simp) rfl
    simp only [List.length_nil, Nat.zero_add] at hmain
    refine ⟨hmain, ?_⟩
    have hlen := congrArg List.length hmain
    rw [List.length_map, Routes.expectedActions_length] at hlen
    exact hlen
  · intro ledger uid c t n hc
    have hres : Routes.resolveTargetUser uid (Except.ok (some uid)) =
        uid := by
      simp [Routes.resolveTargetUser]
    unfold Routes.socketProcessRFIDScan Routes.rfidScanRoute
    rw [if_neg hc]
    by_cases hdup : Ledger.checkDuplicateScan ledger uid c 5 n = true
    · simp only [hres, hdup, if_true]
    · rw [Bool.not_eq_true] at hdup
      simp only [hres, hdup, Bool.false_eq_true, if_false]
      have hlook : Routes.scanLookupDate none t = some t := rfl
      rw [hlook]
      rcases hls : Ledger.getLastScanForUser ledger uid (some t)
        with _ | ls
      · simp [Routes.resolveScanAction, Routes.scanNotes]
      · have hdate : ls.scanDate = t := Ledger.getLastScanForUser_date hls
        cases hact : ls.actionType <;>
          simp [Routes.resolveScanAction, Routes.scanNotes, hdate, hact]

/-- Claim C4, witness: three scans of user 1's card at seconds 100, 110,
120 — well outside the 5-second window — replayed day-scoped from an empty
ledger give `check_in, check_out, check_in`, and the socket path writes the
same ledger as the route on an empty ledger. -/
theorem c4_alternation_invariant_witness :
    ((Routes.replayRfidScan 1 "0000000001" none 7 [100, 110, 120] []).map
        (·.actionType) = Routes.expectedActions 3 ∧
      (Routes.replayRfidScan 1 "0000000001" none 7 [100, 110, 120]
        []).length = 3) ∧
    (Routes.socketProcessRFIDScan [] (some 1) "0000000001" none 7 100).2 =
      (Routes.rfidScanRoute [] 1 (Except.ok (some 1)) "0000000001" none 7
        100).2 :=
  ⟨c4_alternation_invariant.1 1 "0000000001" none 7 [100, 110, 120]
      (by decide) (by decide),
   c4_alternation_invariant.2 [] 1 "0000000001" 7 100 (by decide)⟩

/-- Claim C6, counterexample: the input `"abc"` is non-empty but contains no
digit character, yet `processManualScan` accepts it — the digit residue is
empty, `padStart` turns it into ten zeros, and `isValidCardId` passes —
instead of failing with the invalid-identifier error; the `/rfid/manual`
normalizer likewise forwards it as `0000000000` instead of rejecting it. -/
theorem c6_normalizer_counterexample :
    Normalizer.processManualScan "abc" = (true, some "0000000000") ∧
    Normalizer.rfidManualNormalize "abc" = some "0000000000" :=
  ⟨rfl, rfl⟩

/-- Claim C6, amended: the normalizer strips non-digits and left-pads the
residue with zeros to width ten; an input is accepted exactly when it is
non-empty and carries at most twelve digit characters — in particular a
non-empty input with no digits at all is accepted as ten zeros rather than
rejected — and every accepted identifier is all digits with a length in the
8–12 band (effectively 10–12 after padding). Empty inputs and inputs with
more than twelve digits are the only ones rejected. -/
theorem c6_normalizer_amended (s : String) :
    Normalizer.processManualScan s =
      (if s = "" then (false, none)
       else if (s.toList.filter Char.isDigit).length ≤ 12 then
         (true, some (String.mk
           (List.replicate (10 - (s.toList.filter Char.isDigit).length) '0' ++
             s.toList.filter Char.isDigit)))
       else (false, none)) ∧
    (match (Normalizer.processManualScan s).2 with
     | some n => 8 ≤ n.toList.length ∧ n.toList.length ≤ 12 ∧
         n.toList.all Char.isDigit = true
     | none => True) := by
  have heq : Normalizer.processManualScan s =
      (if s = "" then (false, none)
       else if (s.toList.filter Char.isDigit).length ≤ 12 then
         (true, some (String.mk
           (List.replicate (10 - (s.toList.filter Char.isDigit).length) '0' ++
             s.toList.filter Char.isDigit)))
       else (false, none)) := by
    by_cases hs : s = ""
    · simp [Normalizer.processManualScan, Normalizer.normalizeCardId, hs]
    · set c := s.toList.filter Char.isDigit with hc
      set p := List.replicate (10 - c.length) '0' ++ c with hp
      have hplen : p.length = (10 - c.length) + c.length := by simp [hp]
      have hppos : p ≠ [] := by
        intro h
        have h0 : p.length = 0 := by rw [h]; rfl
        rw [hplen] at h0
        omega
      have hpne : String.mk p ≠ "" := stringMk_ne_empty hppos
      have hpdig : p.all Char.isDigit = true := by
        simp only [hp, List.all_append, Bool.and_eq_true, List.all_eq_true]
        constructor
        · intro a ha
          rw [List.eq_of_mem_replicate ha]
          decide
        · intro a ha
          exact List.of_mem_filter ha
      have htl : (String.mk p).toList = p := rfl
      simp only [Normalizer.processManualScan, Normalizer.normalizeCardId, hs,
        if_neg hs, ← hc, ← hp]
      by_cases h12 : c.length ≤ 12
      · have hvalid : Normalizer.isValidCardId (String.mk p) = true := by
          unfold Normalizer.isValidCardId
          rw [if_neg hpne, htl]
          have h1 : (p.length > 0 && p.all Char.isDigit) = true := by
            rw [hpdig]
            simp
            omega
          rw [h1]
          simp only [Bool.not_true, Bool.false_eq_true, if_false]
          have h2 : (decide (p.length < 8) || decide (p.length > 12)) = false := by
            simp only [Bool.or_eq_false_iff, decide_eq_false_iff_not, not_lt,
              gt_iff_lt]
            omega
          rw [h2]
          simp
        simp [hvalid, hpne, h12]
      · have hinvalid : Normalizer.isValidCardId (String.mk p) = false := by
          unfold Normalizer.isValidCardId
          rw [if_neg hpne, htl]
          have h1 : (p.length > 0 && p.all Char.isDigit) = true := by
            rw [hpdig]
            simp
            omega
          rw [h1]
          simp only [Bool.not_true, Bool.false_eq_true, if_false]
          have h2 : (decide (p.length < 8) || decide (p.length > 12)) = true := by
            simp only [Bool.or_eq_true, decide_eq_true_eq]
            omega
          rw [h2]
          simp
        simp [hinvalid, hpne, h12]
  refine ⟨heq, ?_⟩
  rw [heq]
  by_cases hs : s = ""
  · simp [hs]
  · by_cases h12 : (s.toList.filter Char.isDigit).length ≤ 12
    · simp only [hs, if_neg, if_false, h12, if_true, if_pos]
      have hlen : (String.mk
          (List.replicate (10 - (s.toList.filter Char.isDigit).length) '0' ++
            s.toList.filter Char.isDigit)).toList.length =
          (10 - (s.toList.filter Char.isDigit).length) +
            (s.toList.filter Char.isDigit).length := by
        simp [String.toList]
      refine ⟨?_, ?_, ?_⟩
      · rw [hlen]; omega
      · rw [hlen]; omega
      · simp only [List.all_eq_true]
        intro a ha
        rcases List.mem_append.mp ha with h' | h'
        · rw [List.eq_of_mem_replicate h']
          decide
        · exact List.of_mem_filter h'
    · have h12' : ¬ (s.data.filter Char.isDigit).length ≤ 12 := h12
      simp [hs, h12']

/-- Claim C1, code evaluation at the failing input. First conjunct
(`POST /attendance/event`): user 1 already has a valid `check_in` for event 7
today (day 7, time 1000), yet a second scan for event 7 at time 2000 yields
`check_in` again instead of the opposite action — `getLastScanForUser`
ignores the event argument and the route's `lastScan.event_id` read is
`undefined`, so the alternation branch never fires. Second conjunct
(`POST /rfid/scan`): the first-ever scan in event 9 is resolved against the
user's last valid scan anywhere (here a `check_in` in event 5 the previous
day), producing `check_out` where an event-scoped lookup would produce
`check_in`. -/
theorem c1_event_scope_lookup_failing_input :
    (Routes.attendanceEventRoute
      [{ userId := 1, rfidCard := "0000000001", scanTime := 1000,
         scanDate := 7, actionType := ActionType.check_in, eventId := some 7,
         notes := none, status := RecStatus.valid }]
      1 "0000000001" 7 none 7 2000).1 =
      Routes.ScanOutcome.ok
        { userId := 1, rfidCard := "0000000001", scanTime := 2000,
          scanDate := 7, actionType := ActionType.check_in, eventId := some 7,
          notes := some "Method: manual, Event: 7",
          status := RecStatus.valid } ∧
    (Routes.rfidScanRoute
      [{ userId := 1, rfidCard := "0000000001", scanTime := 1000,
         scanDate := 6, actionType := ActionType.check_in, eventId := some 5,
         notes := none, status := RecStatus.valid }]
      1 (Except.ok (some 1)) "0000000001" (some 9) 7 2000).1 =
      Routes.ScanOutcome.ok
        { userId := 1, rfidCard := "0000000001", scanTime := 2000,
          scanDate := 7, actionType := ActionType.check_out, eventId := some 9,
          notes := none, status := RecStatus.valid } :=
  ⟨rfl, rfl⟩

/-- Claim C2, counterexample: on an empty ledger — the user has no prior
`entry` in any scope — the forced-exit entry point `POST /attendance/checkout`
does not fail with a not-checked-in error: it records a forced `check_out`
immediately. -/
theorem c2_forced_checkout_counterexample :
    Routes.checkoutRoute [] 1 (Except.ok none) "0000000001" none 7 100 =
      (Routes.ScanOutcome.ok
        { userId := 1, rfidCard := "0000000001", scanTime := 100,
          scanDate := 7, actionType := ActionType.check_out, eventId := none,
          notes := some "method:manual", status := RecStatus.valid },
       [{ userId := 1, rfidCard := "0000000001", scanTime := 100,
          scanDate := 7, actionType := ActionType.check_out, eventId := none,
          notes := some "method:manual", status := RecStatus.valid }]) :=
  rfl

end RfidNode
